import Mathlib

/-!
A shallow embedding, in Lean 4, of the DwiSlpy toolchain: the type/return
checker (dwislpy-check.cc / dwislpy-check.hh), the tree-walking interpreter
(dwislpy-ast.cc), the AST-to-IR translation (dwislpy-inst.cc / dwislpy-inst.hh)
and the MIPS frame layout (dwislpy-mips.cc), together with theorems about
their behavior.

Conventions used throughout:
 - C++ `std::variant` types become Lean inductives; a default-constructed
   variant (`Type {}`, `Valu {}`) is its FIRST alternative, value-initialized.
 - C++ exceptions (`throw DwislpyError`) become `Except` results.
 - Machine ints are modelled as unbounded `Int`/`Nat` (no claim exercises
   overflow); frame offsets may be negative and are `Int`.
 - The recursive walkers (checker, interpreter, translator) are given an
   explicit fuel parameter that every recursive call decrements; running out
   of fuel is a distinguished outcome separate from a DwiSlpy error.  The C++
   walkers over the same inputs correspond to runs with sufficient fuel.
 - `std::unordered_map` becomes an association list; only lookup and
   key-update are ever observed by the embedded code.
-/

namespace DwiSlpy

/-- Locn from dwislpy-util.hh: a (source file, line, column) triple. -/
structure Locn where
  source_name : String
  line : Int
  column : Int
deriving DecidableEq

/-- DwislpyError from dwislpy-util.hh: a located error message. -/
structure DwislpyError where
  locn : Locn
  msg : String
deriving DecidableEq

/-- Type from dwislpy-check.hh: variant IntTy | StrTy | BoolTy | NoneTy.
The first alternative is IntTy, so a default-constructed `Type {}` is IntTy. -/
inductive Ty where
  | int
  | str
  | bool
  | none
deriving DecidableEq

/-- is_int from dwislpy-check.cc. -/
def is_int : Ty → Bool
  | Ty.int => true
  | _ => false

/-- is_str from dwislpy-check.cc. -/
def is_str : Ty → Bool
  | Ty.str => true
  | _ => false

/-- is_bool from dwislpy-check.cc. -/
def is_bool : Ty → Bool
  | Ty.bool => true
  | _ => false

/-- is_None from dwislpy-check.cc. -/
def is_None : Ty → Bool
  | Ty.none => true
  | _ => false

/-- type_name from dwislpy-check.cc. -/
def type_name : Ty → String
  | Ty.int => "int"
  | Ty.str => "str"
  | Ty.bool => "bool"
  | Ty.none => "None"

/-- Rtns from dwislpy-check.hh: variant Void | VoidOr | Type.
`Rtns.ty t` is the alternative holding a `Type` directly. -/
inductive Rtns where
  | void
  | voidOr (type : Ty)
  | ty (t : Ty)
deriving DecidableEq

/-- plus from dwislpy-check.cc (lines 47-99): join of two return behaviors,
throwing on a mismatch of the carried types. -/
def plus (lo : Locn) : Rtns → Rtns → Except DwislpyError Rtns
  | Rtns.void, Rtns.void => .ok Rtns.void
  | Rtns.void, Rtns.voidOr t2 => .ok (Rtns.voidOr t2)
  | Rtns.void, Rtns.ty t2 => .ok (Rtns.voidOr t2)
  | Rtns.voidOr t1, Rtns.void => .ok (Rtns.voidOr t1)
  | Rtns.voidOr t1, Rtns.voidOr t2 =>
      if t1 = t2 then .ok (Rtns.voidOr t1)
      else .error ⟨lo, "Return type behavior mismatch in Retn addition statement."⟩
  | Rtns.voidOr t1, Rtns.ty t2 =>
      if t1 = t2 then .ok (Rtns.voidOr t1)
      else .error ⟨lo, "Return type behavior mismatch in Retn addition statement."⟩
  | Rtns.ty t1, Rtns.void => .ok (Rtns.voidOr t1)
  | Rtns.ty t1, Rtns.voidOr t2 =>
      if t1 = t2 then .ok (Rtns.ty t1)
      else .error ⟨lo, "Return type behavior mismatch in Retn addition statement."⟩
  | Rtns.ty t1, Rtns.ty t2 =>
      if t1 = t2 then .ok (Rtns.ty t1)
      else .error ⟨lo, "Return type behavior mismatch in Retn addition statement."⟩

/-- type_of from dwislpy-check.cc (lines 118-126). -/
def type_of : Rtns → Ty
  | Rtns.voidOr t => t
  | Rtns.ty t => t
  | Rtns.void => Ty.none

/-- Valu from dwislpy-ast.hh line 43: variant int | bool | string | none.
The first alternative is int, so a default-constructed `Valu {}` is the
integer 0. -/
inductive Valu where
  | VInt (i : Int)
  | VBool (b : Bool)
  | VStr (s : String)
  | VNone
deriving DecidableEq

/-- predicate from dwislpy-ast.cc (lines 18-32): the truthiness of a value. -/
def predicate : Valu → Bool
  | Valu.VInt i => i ≠ 0
  | Valu.VBool b => b
  | Valu.VStr s => ¬ (s = "")
  | Valu.VNone => false

/-- to_string from dwislpy-ast.cc (lines 53-69). -/
def to_string : Valu → String
  | Valu.VInt i => toString i
  | Valu.VStr s => s
  | Valu.VBool b => if b then "True" else "False"
  | Valu.VNone => "None"

/-- re_escape from dwislpy-util.cc (lines 84-100). -/
def re_escape_char (c : Char) : String :=
  if c = '\n' then "\\n"
  else if c = '\t' then "\\t"
  else if c = '\\' then "\\\\"
  else if c = '"' then "\\\""
  else String.singleton c

/-- re_escape from dwislpy-util.cc, folded over the characters of the string. -/
def re_escape (s : String) : String :=
  s.toList.foldl (fun acc c => acc ++ re_escape_char c) ""

/-- SymKind from dwislpy-check.hh. -/
inductive SymKind where
  | FRML
  | LOCL
  | TEMP
deriving DecidableEq

/-- SymInfo from dwislpy-check.hh: the record stored per name.  The C++
constructor leaves frame_offset uninitialized; the embedding initializes it
to 0 (no embedded code reads it before set_frame_offset). -/
structure SymInfo where
  name : String
  identifier : Nat
  type : Ty
  kind : SymKind
  frame_offset : Int
deriving DecidableEq

/-- SymT from dwislpy-check.hh.  `sym_table` is the unordered_map as an
association list (first match wins; updates cons a fresh binding, which is
observably the map's assign since the embedded code only reads the map point
wise).  The `globals` parent pointer is not represented: `add_labl` and
`add_strg` below embed the root (globals == nullptr) behavior, which is the
only behavior the root table exhibits and what a child delegates to. -/
structure SymT where
  strings : List (String × String)
  sym_table : List (String × SymInfo)
  formals : List String
  locals : List String
  sym_id : Nat
  frame_size : Int
deriving DecidableEq

/-- The freshly constructed SymT (the C++ default constructor; frame_size is
uninitialized in C++ and 0 here; no embedded code reads it before
set_frame_size). -/
def SymT.empty : SymT :=
  { strings := [], sym_table := [], formals := [], locals := [], sym_id := 0, frame_size := 0 }

/-- Point lookup in an association list: the value at the first matching key. -/
def assocGet (k : String) : List (String × SymInfo) → Option SymInfo
  | [] => Option.none
  | (k', v) :: rest => if k' = k then some v else assocGet k rest

/-- Key update in an association list (unordered_map operator[]-assign):
overwrite the first binding of the key, else append a new binding. -/
def assocSet (k : String) (v : String) : List (String × String) → List (String × String)
  | [] => [(k, v)]
  | (k', v') :: rest => if k' = k then (k, v) :: rest else (k', v') :: assocSet k v rest

/-- Point lookup in the strings pool. -/
def strgGet (k : String) : List (String × String) → Option String
  | [] => Option.none
  | (k', v) :: rest => if k' = k then some v else strgGet k rest

/-- SymT::add_frml: inserts with identifier 0 (the source passes 0, not
sym_id++) and appends to formals. -/
def SymT.add_frml (st : SymT) (nm : String) (ty : Ty) : String × SymT :=
  (nm, { st with
          sym_table := (nm, ⟨nm, 0, ty, SymKind.FRML, 0⟩) :: st.sym_table,
          formals := st.formals ++ [nm] })

/-- SymT::add_locl: inserts with identifier sym_id++ and appends to locals. -/
def SymT.add_locl (st : SymT) (nm : String) (ty : Ty) : String × SymT :=
  (nm, { st with
          sym_table := (nm, ⟨nm, st.sym_id, ty, SymKind.LOCL, 0⟩) :: st.sym_table,
          locals := st.locals ++ [nm],
          sym_id := st.sym_id + 1 })

/-- SymT::add_temp (named form). -/
def SymT.add_temp_named (st : SymT) (nm : String) (ty : Ty) : String × SymT :=
  (nm, { st with
          sym_table := (nm, ⟨nm, st.sym_id, ty, SymKind.TEMP, 0⟩) :: st.sym_table,
          locals := st.locals ++ [nm],
          sym_id := st.sym_id + 1 })

/-- SymT::add_temp (anonymous form): name is temp_<id> with id = sym_id++. -/
def SymT.add_temp (st : SymT) (ty : Ty) : String × SymT :=
  let id := st.sym_id
  let nm := "temp_" ++ Nat.repr id
  (nm, { st with
          sym_table := (nm, ⟨nm, id, ty, SymKind.TEMP, 0⟩) :: st.sym_table,
          locals := st.locals ++ [nm],
          sym_id := st.sym_id + 1 })

/-- SymT::add_labl(nm) at the root: returns the name unchanged and records
nothing. -/
def SymT.add_labl_named (st : SymT) (nm : String) : String × SymT :=
  (nm, st)

/-- SymT::add_labl() at the root: allocates the fresh label L_<id> with
id = sym_id++. -/
def SymT.add_labl (st : SymT) : String × SymT :=
  let id := st.sym_id
  let nm := "L_" ++ Nat.repr id
  let (nm', st') := SymT.add_labl_named { st with sym_id := st.sym_id + 1 } nm
  (nm', st')

/-- SymT::add_strg at the root: allocates a fresh label via add_labl and
assigns strings[labl] = strg. -/
def SymT.add_strg (st : SymT) (strg : String) : String × SymT :=
  let (labl, st') := st.add_labl
  (labl, { st' with strings := assocSet labl strg st'.strings })

/-- SymT::has_info. -/
def SymT.has_info (st : SymT) (nm : String) : Bool :=
  (assocGet nm st.sym_table).isSome

/-- SymT::get_info.  The C++ map::at throws std::out_of_range on a missing
key; the embedding returns an Option and call sites surface the miss. -/
def SymT.get_info (st : SymT) (nm : String) : Option SymInfo :=
  assocGet nm st.sym_table

/-- SymT::get_locl. -/
def SymT.get_locl (st : SymT) (i : Nat) : Option SymInfo :=
  (st.locals.get? i).bind (fun nm => assocGet nm st.sym_table)

/-- SymT::get_frml. -/
def SymT.get_frml (st : SymT) (i : Nat) : Option SymInfo :=
  (st.formals.get? i).bind (fun nm => assocGet nm st.sym_table)

/-- SymT::get_frmls_size. -/
def SymT.get_frmls_size (st : SymT) : Nat :=
  st.formals.length

/-- SymT::get_locls_size. -/
def SymT.get_locls_size (st : SymT) : Nat :=
  st.locals.length

/-- SymT::set_frame_offset: writes through get_info's pointer.  The embedding
cons-updates the binding (first match wins on lookup).  A missing name would
throw in C++ and is a no-op here (no embedded call site misses). -/
def SymT.set_frame_offset (st : SymT) (nm : String) (offset : Int) : SymT :=
  match assocGet nm st.sym_table with
  | some info => { st with sym_table := (nm, { info with frame_offset := offset }) :: st.sym_table }
  | Option.none => st

/-- SymT::set_frame_size. -/
def SymT.set_frame_size (st : SymT) (sz : Int) : SymT :=
  { st with frame_size := sz }

/-!
The interpreter of dwislpy-ast.cc.  That translation unit implements `exec`
and `eval` for the AST classes ECal, SCal, Nest, Blck, Asgn, PlEq, MiEq,
Pass, Prnt, Whle, Tern, Retn, RetE and the expression classes; their class
declarations live in a header that is not part of src/, but every method
body below is translated from dwislpy-ast.cc itself, and the fields of each
class are exactly those the method bodies read.
-/

mutual
/-- Expression nodes of the interpreter AST, as used by dwislpy-ast.cc. -/
inductive IExpn where
  | ECal (name : String) (args : List IExpn) (locn : Locn)
  | Plus (left rght : IExpn) (locn : Locn)
  | Mnus (left rght : IExpn) (locn : Locn)
  | Tmes (left rght : IExpn) (locn : Locn)
  | IDiv (left rght : IExpn) (locn : Locn)
  | IMod (left rght : IExpn) (locn : Locn)
  | Conj (left rght : IExpn) (locn : Locn)
  | Disj (left rght : IExpn) (locn : Locn)
  | Less (left rght : IExpn) (locn : Locn)
  | LtEq (left rght : IExpn) (locn : Locn)
  | Eqal (left rght : IExpn) (locn : Locn)
  | Negt (expn : IExpn) (locn : Locn)
  | Ltrl (valu : Valu) (locn : Locn)
  | Lkup (name : String) (locn : Locn)
  | Inpt (expn : IExpn) (locn : Locn)
  | IntC (expn : IExpn) (locn : Locn)
  | StrC (expn : IExpn) (locn : Locn)

/-- Statement nodes of the interpreter AST, as used by dwislpy-ast.cc. -/
inductive IStmt where
  | Asgn (name : String) (expn : IExpn) (locn : Locn)
  | PlEq (name : String) (expn : IExpn) (locn : Locn)
  | MiEq (name : String) (expn : IExpn) (locn : Locn)
  | Pass (locn : Locn)
  | Prnt (prms : List IExpn) (locn : Locn)
  | SCal (name : String) (args : List IExpn) (locn : Locn)
  | Whle (expn : IExpn) (nest : INest) (locn : Locn)
  | Tern (expn : IExpn) (nest_if nest_else : INest) (locn : Locn)
  | Retn (locn : Locn)
  | RetE (expn : IExpn) (locn : Locn)

/-- Nest node (a wrapped block) of the interpreter AST. -/
inductive INest where
  | mk (blck : IBlck) (locn : Locn)

/-- Block node of the interpreter AST. -/
inductive IBlck where
  | mk (stmts : List IStmt) (locn : Locn)
end

/-- Defn as used by the interpreter of dwislpy-ast.cc: a name, the formal
parameter names, and the nested body. -/
structure IDefn where
  name : String
  args : List String
  nest : INest
  locn : Locn

/-- Defs as used by dwislpy-ast.cc: a vector of definitions. -/
abbrev IDefs := List IDefn

/-- The linear search of ECal::eval and SCal::exec: scan the definitions
from the last to the first and take the first whose name matches, so the
most recently defined wins. -/
def find_defn (defs : IDefs) (nm : String) : Option IDefn :=
  match defs with
  | [] => Option.none
  | d :: rest =>
      match find_defn rest nm with
      | some d' => some d'
      | Option.none => if d.name = nm then some d else Option.none

/-- Ctxt from dwislpy-ast.hh: unordered_map from name to value, as an
association list. -/
abbrev Ctxt := List (String × Valu)

/-- Point lookup in a Ctxt. -/
def ctxtGet (k : String) : Ctxt → Option Valu
  | [] => Option.none
  | (k', v) :: rest => if k' = k then some v else ctxtGet k rest

/-- Key update in a Ctxt (map operator[]-assign). -/
def ctxtSet (k : String) (v : Valu) : Ctxt → Ctxt
  | [] => [(k, v)]
  | (k', v') :: rest => if k' = k then (k, v) :: rest else (k', v') :: ctxtSet k v rest

/-- Ctxt key membership (ctxt.count(name) > 0). -/
def ctxtHas (k : String) (c : Ctxt) : Bool :=
  (ctxtGet k c).isSome

/-- The observable console state of a run: the remaining whitespace
delimited stdin tokens and the accumulated stdout text. -/
structure World where
  inp : List String
  out : String
deriving DecidableEq

/-- A run outcome: a thrown DwislpyError, or the fuel artifact of the
embedding (never produced by any terminating C++ run given enough fuel). -/
inductive RunErr where
  | err (e : DwislpyError)
  | out_of_fuel
deriving DecidableEq

deriving instance DecidableEq for Except

/-- The character class of isspace in the default C locale, which is what
std::stoi skips before parsing. -/
def isCppSpace (c : Char) : Bool :=
  c = ' ' || c = '\t' || c = '\n' || c = '\x0b' || c = '\x0c' || c = '\r'

/-- Value of the longest digit prefix, accumulated left to right. -/
def takeDigitsVal (acc : Nat) : List Char → Nat
  | [] => acc
  | c :: rest => if c.isDigit then takeDigitsVal (acc * 10 + (c.toNat - '0'.toNat)) rest else acc

/-- A model of std::stoi(s) in base 10 as invoked by IntC::eval: skip
leading whitespace, accept one optional sign, then parse the longest digit
prefix, ignoring any trailing characters; `none` models the
std::invalid_argument throw when no digit can be parsed.  Overflow
(std::out_of_range, which IntC::eval does not catch) is not modelled: the
embedding's integers are unbounded. -/
def stoi (s : String) : Option Int :=
  let cs := s.toList.dropWhile isCppSpace
  match cs with
  | '-' :: rest =>
      match rest with
      | c :: _ => if c.isDigit then some (-(takeDigitsVal 0 rest : Int)) else Option.none
      | [] => Option.none
  | '+' :: rest =>
      match rest with
      | c :: _ => if c.isDigit then some ((takeDigitsVal 0 rest : Int)) else Option.none
      | [] => Option.none
  | c :: _ => if c.isDigit then some ((takeDigitsVal 0 cs : Int)) else Option.none
  | [] => Option.none

mutual

/-- Expn::eval from dwislpy-ast.cc, over the fuelled run model.  Integer
division and remainder use truncation toward zero as C++ does. -/
def IExpn.eval (fuel : Nat) (defs : IDefs) (ctxt : Ctxt) (w : World) (e : IExpn) :
    Except RunErr (Valu × World) :=
  match fuel with
  | 0 => .error RunErr.out_of_fuel
  | fuel' + 1 =>
    match e with
    | IExpn.ECal name args lo =>
        match find_defn defs name with
        | Option.none => .error (.err ⟨lo, "No function with name " ++ name ++ " found."⟩)
        | some d =>
            if d.args.length ≠ args.length then
              .error (.err ⟨lo, "Incorrect number of args found for function " ++ name
                ++ ": expected " ++ Nat.repr d.args.length ++ ", saw "
                ++ Nat.repr args.length ++ "."⟩)
            else do
              let (fctxt, w1) ← evalBindArgs fuel' defs ctxt w d.args args []
              let (rv, _, w2) ← INest.exec fuel' defs fctxt w1 d.nest
              match rv with
              | some v => .ok (v, w2)
              -- `return Valu { };`: the default-constructed variant is its
              -- first alternative int, value-initialized, i.e. the int 0.
              | Option.none => .ok (Valu.VInt 0, w2)
    | IExpn.Plus left rght lo => do
        let (lv, w1) ← IExpn.eval fuel' defs ctxt w left
        let (rv, w2) ← IExpn.eval fuel' defs ctxt w1 rght
        match lv, rv with
        | Valu.VInt ln, Valu.VInt rn => .ok (Valu.VInt (ln + rn), w2)
        | Valu.VStr ls, Valu.VStr rs => .ok (Valu.VStr (ls ++ rs), w2)
        | _, _ => .error (.err ⟨lo, "Run-time error: wrong operand type for plus."⟩)
    | IExpn.Mnus left rght lo => do
        let (lv, w1) ← IExpn.eval fuel' defs ctxt w left
        let (rv, w2) ← IExpn.eval fuel' defs ctxt w1 rght
        match lv, rv with
        | Valu.VInt ln, Valu.VInt rn => .ok (Valu.VInt (ln - rn), w2)
        | _, _ => .error (.err ⟨lo, "Run-time error: wrong operand type for minus."⟩)
    | IExpn.Tmes left rght lo => do
        let (lv, w1) ← IExpn.eval fuel' defs ctxt w left
        let (rv, w2) ← IExpn.eval fuel' defs ctxt w1 rght
        match lv, rv with
        | Valu.VInt ln, Valu.VInt rn => .ok (Valu.VInt (ln * rn), w2)
        | _, _ => .error (.err ⟨lo, "Run-time error: wrong operand type for times."⟩)
    | IExpn.IDiv left rght lo => do
        let (lv, w1) ← IExpn.eval fuel' defs ctxt w left
        let (rv, w2) ← IExpn.eval fuel' defs ctxt w1 rght
        match lv, rv with
        | Valu.VInt ln, Valu.VInt rn =>
            if rn = 0 then .error (.err ⟨lo, "Run-time error: division by 0."⟩)
            else .ok (Valu.VInt (Int.tdiv ln rn), w2)
        | _, _ => .error (.err ⟨lo, "Run-time error: wrong operand type for quotient."⟩)
    | IExpn.IMod left rght lo => do
        let (lv, w1) ← IExpn.eval fuel' defs ctxt w left
        let (rv, w2) ← IExpn.eval fuel' defs ctxt w1 rght
        match lv, rv with
        | Valu.VInt ln, Valu.VInt rn =>
            if rn = 0 then .error (.err ⟨lo, "Run-time error: division by 0."⟩)
            else .ok (Valu.VInt (Int.tmod ln rn), w2)
        | _, _ => .error (.err ⟨lo, "Run-time error: wrong operand type for remainder."⟩)
    | IExpn.Conj left rght _ => do
        let (lv, w1) ← IExpn.eval fuel' defs ctxt w left
        let (rv, w2) ← IExpn.eval fuel' defs ctxt w1 rght
        .ok (Valu.VBool (predicate lv && predicate rv), w2)
    | IExpn.Disj left rght _ => do
        let (lv, w1) ← IExpn.eval fuel' defs ctxt w left
        let (rv, w2) ← IExpn.eval fuel' defs ctxt w1 rght
        .ok (Valu.VBool (predicate lv || predicate rv), w2)
    | IExpn.Less left rght lo => do
        let (lv, w1) ← IExpn.eval fuel' defs ctxt w left
        let (rv, w2) ← IExpn.eval fuel' defs ctxt w1 rght
        match lv, rv with
        | Valu.VInt ln, Valu.VInt rn => .ok (Valu.VBool (decide (ln < rn)), w2)
        | _, _ => .error (.err ⟨lo, "Run-time error: wrong operand type for less than."⟩)
    | IExpn.LtEq left rght lo => do
        let (lv, w1) ← IExpn.eval fuel' defs ctxt w left
        let (rv, w2) ← IExpn.eval fuel' defs ctxt w1 rght
        match lv, rv with
        | Valu.VInt ln, Valu.VInt rn => .ok (Valu.VBool (decide (ln ≤ rn)), w2)
        | _, _ =>
            .error (.err ⟨lo, "Run-time error: wrong operand type for less than or equal to."⟩)
    | IExpn.Eqal left rght _ => do
        let (lv, w1) ← IExpn.eval fuel' defs ctxt w left
        let (rv, w2) ← IExpn.eval fuel' defs ctxt w1 rght
        match lv, rv with
        | Valu.VInt ln, Valu.VInt rn => .ok (Valu.VBool (decide (ln = rn)), w2)
        | Valu.VStr ls, Valu.VStr rs => .ok (Valu.VBool (decide (ls = rs)), w2)
        | _, _ => .ok (Valu.VBool false, w2)
    | IExpn.Negt expn _ => do
        let (ex, w1) ← IExpn.eval fuel' defs ctxt w expn
        .ok (Valu.VBool (! predicate ex), w1)
    | IExpn.Ltrl valu _ => .ok (valu, w)
    | IExpn.Lkup name lo =>
        match ctxtGet name ctxt with
        | some v => .ok (v, w)
        | Option.none =>
            .error (.err ⟨lo, "Run-time error: variable '" ++ name ++ "'" ++ "not defined."⟩)
    | IExpn.Inpt expn lo => do
        let (v, w1) ← IExpn.eval fuel' defs ctxt w expn
        match v with
        | Valu.VStr prompt =>
            -- `std::cin >> vl` reads one whitespace-delimited token; on an
            -- exhausted stream it leaves the value-initialized empty string.
            match w1.inp with
            | t :: ts => .ok (Valu.VStr t, ⟨ts, w1.out ++ prompt⟩)
            | [] => .ok (Valu.VStr "", ⟨[], w1.out ++ prompt⟩)
        | _ => .error (.err ⟨lo, "Run-time error: prompt is not a string."⟩)
    | IExpn.IntC expn lo => do
        let (v, w1) ← IExpn.eval fuel' defs ctxt w expn
        match v with
        | Valu.VInt i => .ok (Valu.VInt i, w1)
        | Valu.VStr s =>
            match stoi s with
            | some i => .ok (Valu.VInt i, w1)
            | Option.none =>
                .error (.err ⟨lo, "Run-time error: \"" ++ s ++ "\""
                  ++ "cannot be converted to an int."⟩)
        | Valu.VBool b => .ok (Valu.VInt (if b then 1 else 0), w1)
        | Valu.VNone => .error (.err ⟨lo, "Run-time error: cannot convert to an int."⟩)
    | IExpn.StrC expn _ => do
        let (v, w1) ← IExpn.eval fuel' defs ctxt w expn
        .ok (Valu.VStr (to_string v), w1)
termination_by structural fuel

/-- The argument-binding loop of ECal::eval and SCal::exec: each actual is
evaluated in the caller's context and bound to the matching formal in the
fresh callee context.  A length mismatch is unreachable behind the arity
check. -/
def evalBindArgs (fuel : Nat) (defs : IDefs) (ctxt : Ctxt) (w : World)
    (frmls : List String) (args : List IExpn) (fctxt : Ctxt) :
    Except RunErr (Ctxt × World) :=
  match fuel with
  | 0 => .error RunErr.out_of_fuel
  | fuel' + 1 =>
    match frmls, args with
    | f :: fs, a :: rest => do
        let (v, w1) ← IExpn.eval fuel' defs ctxt w a
        evalBindArgs fuel' defs ctxt w1 fs rest (ctxtSet f v fctxt)
    | _, _ => .ok (fctxt, w)
termination_by structural fuel

/-- Stmt::exec from dwislpy-ast.cc: returns `some v` to propagate a return
value upward, `none` to continue, threading the (mutated) context and the
console state. -/
def IStmt.exec (fuel : Nat) (defs : IDefs) (ctxt : Ctxt) (w : World) (s : IStmt) :
    Except RunErr (Option Valu × Ctxt × World) :=
  match fuel with
  | 0 => .error RunErr.out_of_fuel
  | fuel' + 1 =>
    match s with
    | IStmt.Asgn name expn _ => do
        let (v, w1) ← IExpn.eval fuel' defs ctxt w expn
        .ok (Option.none, ctxtSet name v ctxt, w1)
    | IStmt.PlEq name expn lo =>
        match ctxtGet name ctxt with
        | Option.none =>
            .error (.err ⟨lo, "Run-time error: variable '" ++ name ++ "'" ++ "not defined."⟩)
        | some n => do
            let (ev, w1) ← IExpn.eval fuel' defs ctxt w expn
            match ev, n with
            | Valu.VInt ie, Valu.VInt i =>
                .ok (Option.none, ctxtSet name (Valu.VInt (i + ie)) ctxt, w1)
            | Valu.VStr se, Valu.VStr sn =>
                .ok (Option.none, ctxtSet name (Valu.VStr (sn ++ se)) ctxt, w1)
            | _, _ =>
                .error (.err ⟨lo, "Run-time error: wrong operand type for plus equals."⟩)
    | IStmt.MiEq name expn lo =>
        match ctxtGet name ctxt with
        | Option.none =>
            .error (.err ⟨lo, "Run-time error: variable '" ++ name ++ "'" ++ "not defined."⟩)
        | some n => do
            let (ev, w1) ← IExpn.eval fuel' defs ctxt w expn
            match ev, n with
            | Valu.VInt ie, Valu.VInt i =>
                .ok (Option.none, ctxtSet name (Valu.VInt (i - ie)) ctxt, w1)
            | _, _ =>
                .error (.err ⟨lo, "Run-time error: wrong operand type for minus equals."⟩)
    | IStmt.Pass _ => .ok (Option.none, ctxt, w)
    | IStmt.Prnt prms _ =>
        match prms with
        | [] => .ok (Option.none, ctxt, { w with out := w.out ++ "\n" })
        | _ => do
            let w' ← evalPrnt fuel' defs ctxt w prms
            .ok (Option.none, ctxt, w')
    | IStmt.SCal name args lo =>
        match find_defn defs name with
        | Option.none => .error (.err ⟨lo, "No function with name " ++ name ++ " found."⟩)
        | some d =>
            if d.args.length ≠ args.length then
              .error (.err ⟨lo, "Incorrect number of args found for function " ++ name
                ++ ": expected " ++ Nat.repr d.args.length ++ ", saw "
                ++ Nat.repr args.length ++ "."⟩)
            else do
              let (fctxt, w1) ← evalBindArgs fuel' defs ctxt w d.args args []
              let (rv, _, w2) ← INest.exec fuel' defs fctxt w1 d.nest
              match rv with
              -- SCal::exec returns the callee's produced value upward, so a
              -- return inside a called procedure also returns the caller.
              | some v => .ok (some v, ctxt, w2)
              | Option.none => .ok (Option.none, ctxt, w2)
    | IStmt.Whle expn nest lo => do
        let (v, w1) ← IExpn.eval fuel' defs ctxt w expn
        if predicate v then do
          let (rv, ctxt1, w2) ← INest.exec fuel' defs ctxt w1 nest
          match rv with
          | some v' => .ok (some v', ctxt1, w2)
          | Option.none => IStmt.exec fuel' defs ctxt1 w2 (IStmt.Whle expn nest lo)
        else
          .ok (Option.none, ctxt, w1)
    | IStmt.Tern expn nest_if nest_else _ => do
        let (v, w1) ← IExpn.eval fuel' defs ctxt w expn
        if predicate v then do
          let (rv, ctxt1, w2) ← INest.exec fuel' defs ctxt w1 nest_if
          match rv with
          | some v' => .ok (some v', ctxt1, w2)
          | Option.none => .ok (Option.none, ctxt1, w2)
        else do
          let (rv, ctxt1, w2) ← INest.exec fuel' defs ctxt w1 nest_else
          match rv with
          | some v' => .ok (some v', ctxt1, w2)
          | Option.none => .ok (Option.none, ctxt1, w2)
    -- Retn::exec is `return Valu { };`: the default-constructed variant is
    -- its first alternative int, value-initialized, i.e. the int 0.
    | IStmt.Retn _ => .ok (some (Valu.VInt 0), ctxt, w)
    | IStmt.RetE expn _ => do
        let (v, w1) ← IExpn.eval fuel' defs ctxt w expn
        .ok (some v, ctxt, w1)
termination_by structural fuel

/-- The statement loop of Blck::exec. -/
def execStmts (fuel : Nat) (defs : IDefs) (ctxt : Ctxt) (w : World) (stmts : List IStmt) :
    Except RunErr (Option Valu × Ctxt × World) :=
  match fuel with
  | 0 => .error RunErr.out_of_fuel
  | fuel' + 1 =>
    match stmts with
    | [] => .ok (Option.none, ctxt, w)
    | s :: rest => do
        let (rv, ctxt1, w1) ← IStmt.exec fuel' defs ctxt w s
        match rv with
        | some v => .ok (some v, ctxt1, w1)
        | Option.none => execStmts fuel' defs ctxt1 w1 rest
termination_by structural fuel

/-- Blck::exec from dwislpy-ast.cc. -/
def IBlck.exec (fuel : Nat) (defs : IDefs) (ctxt : Ctxt) (w : World) (b : IBlck) :
    Except RunErr (Option Valu × Ctxt × World) :=
  match fuel with
  | 0 => .error RunErr.out_of_fuel
  | fuel' + 1 =>
    match b with
    | IBlck.mk stmts _ => execStmts fuel' defs ctxt w stmts
termination_by structural fuel

/-- Nest::exec from dwislpy-ast.cc. -/
def INest.exec (fuel : Nat) (defs : IDefs) (ctxt : Ctxt) (w : World) (n : INest) :
    Except RunErr (Option Valu × Ctxt × World) :=
  match fuel with
  | 0 => .error RunErr.out_of_fuel
  | fuel' + 1 =>
    match n with
    | INest.mk blck _ => do
        let (rv, ctxt1, w1) ← IBlck.exec fuel' defs ctxt w blck
        match rv with
        | some v => .ok (some v, ctxt1, w1)
        | Option.none => .ok (Option.none, ctxt1, w1)
termination_by structural fuel

/-- The argument loop of Prnt::exec: each argument is printed on its own
line. -/
def evalPrnt (fuel : Nat) (defs : IDefs) (ctxt : Ctxt) (w : World) (prms : List IExpn) :
    Except RunErr World :=
  match fuel with
  | 0 => .error RunErr.out_of_fuel
  | fuel' + 1 =>
    match prms with
    | [] => .ok w
    | e :: rest => do
        let (v, w1) ← IExpn.eval fuel' defs ctxt w e
        evalPrnt fuel' defs ctxt { w1 with out := w1.out ++ to_string v ++ "\n" } rest
termination_by structural fuel

end

/-!
The checker of dwislpy-check.cc over the AST classes of dwislpy-ast.hh
(Ntro, Asgn, PlEq, MiEq, TiEq, Pass, Prnt, Whle, Tern, Retn, RetE, Proc and
the expression classes Func, Plus, Mnus, Tmes, IDiv, IMod, Less, LtEq, Eqal,
Conj, Disj, Negt, Ltrl, Lkup, Inpt, IntC, StrC).  Each expression node
carries the `Type type` member of class Expn (dwislpy-ast.hh line 516),
the annotation that the IR translation reads.
-/

/-- Expression nodes of the checker/translator AST (dwislpy-ast.hh). -/
inductive CExpn where
  | Func (name : String) (args : List CExpn) (type : Ty) (locn : Locn)
  | Plus (left rght : CExpn) (type : Ty) (locn : Locn)
  | Mnus (left rght : CExpn) (type : Ty) (locn : Locn)
  | Tmes (left rght : CExpn) (type : Ty) (locn : Locn)
  | IDiv (left rght : CExpn) (type : Ty) (locn : Locn)
  | IMod (left rght : CExpn) (type : Ty) (locn : Locn)
  | Less (left rght : CExpn) (type : Ty) (locn : Locn)
  | LtEq (left rght : CExpn) (type : Ty) (locn : Locn)
  | Eqal (left rght : CExpn) (type : Ty) (locn : Locn)
  | Conj (left rght : CExpn) (type : Ty) (locn : Locn)
  | Disj (left rght : CExpn) (type : Ty) (locn : Locn)
  | Negt (expn : CExpn) (type : Ty) (locn : Locn)
  | Ltrl (valu : Valu) (type : Ty) (locn : Locn)
  | Lkup (name : String) (type : Ty) (locn : Locn)
  | Inpt (expn : CExpn) (type : Ty) (locn : Locn)
  | IntC (expn : CExpn) (type : Ty) (locn : Locn)
  | StrC (expn : CExpn) (type : Ty) (locn : Locn)

mutual
/-- Statement nodes of the checker/translator AST (dwislpy-ast.hh). -/
inductive CStmt where
  | Ntro (name : String) (type : Ty) (expn : CExpn) (locn : Locn)
  | Asgn (name : String) (expn : CExpn) (locn : Locn)
  | PlEq (name : String) (expn : CExpn) (locn : Locn)
  | MiEq (name : String) (expn : CExpn) (locn : Locn)
  | TiEq (name : String) (expn : CExpn) (locn : Locn)
  | Pass (locn : Locn)
  | Prnt (prms : List CExpn) (locn : Locn)
  | Whle (expn : CExpn) (blck : CBlck) (locn : Locn)
  | Tern (expn : CExpn) (if_blck else_blck : CBlck) (locn : Locn)
  | Retn (locn : Locn)
  | RetE (expn : CExpn) (locn : Locn)
  | Proc (name : String) (args : List CExpn) (locn : Locn)

/-- Block node of the checker/translator AST. -/
inductive CBlck where
  | mk (stmts : List CStmt) (locn : Locn)
end

/-- AST::where for expression nodes. -/
def CExpn.locnOf : CExpn → Locn
  | CExpn.Func _ _ _ lo => lo
  | CExpn.Plus _ _ _ lo => lo
  | CExpn.Mnus _ _ _ lo => lo
  | CExpn.Tmes _ _ _ lo => lo
  | CExpn.IDiv _ _ _ lo => lo
  | CExpn.IMod _ _ _ lo => lo
  | CExpn.Less _ _ _ lo => lo
  | CExpn.LtEq _ _ _ lo => lo
  | CExpn.Eqal _ _ _ lo => lo
  | CExpn.Conj _ _ _ lo => lo
  | CExpn.Disj _ _ _ lo => lo
  | CExpn.Negt _ _ lo => lo
  | CExpn.Ltrl _ _ lo => lo
  | CExpn.Lkup _ _ lo => lo
  | CExpn.Inpt _ _ lo => lo
  | CExpn.IntC _ _ lo => lo
  | CExpn.StrC _ _ lo => lo

/-- AST::where for block nodes. -/
def CBlck.locnOf : CBlck → Locn
  | CBlck.mk _ lo => lo

/-- Defn from dwislpy-ast.hh: name, its symbol table, the declared return
type and the body block. -/
structure CDefn where
  name : String
  symt : SymT
  rety : Ty
  blck : CBlck
  locn : Locn

/-- Defs from dwislpy-ast.hh: unordered_map from Name to Defn_ptr, as an
association list. -/
abbrev CDefs := List (String × CDefn)

/-- Point lookup in a Defs map (defs.count / defs.at). -/
def defsGet (k : String) : CDefs → Option CDefn
  | [] => Option.none
  | (k', v) :: rest => if k' = k then some v else defsGet k rest

/-- Prgm from dwislpy-ast.hh: the definitions and the main block with its
symbol table. -/
structure CPrgm where
  defs : CDefs
  main : CBlck
  main_symt : SymT
  locn : Locn

/-- A checking outcome: a thrown DwislpyError, or the fuel artifact of the
embedding (the C++ checker always terminates: any run corresponds to a
sufficient fuel). -/
inductive ChckErr where
  | err (e : DwislpyError)
  | out_of_fuel
deriving DecidableEq

/-- Wrapper lifting the result of `plus` into a checking outcome. -/
def liftPlus (r : Except DwislpyError Rtns) : Except ChckErr Rtns :=
  match r with
  | .ok v => .ok v
  | .error e => .error (ChckErr.err e)

mutual

/-- Expn::chck from dwislpy-check.cc: the type of an expression. -/
def CExpn.chck (fuel : Nat) (e : CExpn) (defs : CDefs) (symt : SymT) :
    Except ChckErr Ty :=
  match fuel with
  | 0 => .error ChckErr.out_of_fuel
  | fuel' + 1 =>
    match e with
    | CExpn.Func name args _ lo =>
        match defsGet name defs with
        | Option.none =>
            .error (ChckErr.err ⟨lo, "Run-time error: procedure '" ++ name ++ "'"
              ++ " is not defined."⟩)
        | some d =>
            if d.symt.get_frmls_size ≠ args.length then
              .error (ChckErr.err ⟨lo, "Incorrect number of args found for function " ++ name
                ++ ": expected " ++ Nat.repr d.symt.get_frmls_size ++ ", saw "
                ++ Nat.repr args.length ++ "."⟩)
            else do
              chckArgs fuel' args 0 d defs symt lo
              .ok d.rety
    | CExpn.Plus left rght _ lo => do
        let left_ty ← CExpn.chck fuel' left defs symt
        let rght_ty ← CExpn.chck fuel' rght defs symt
        if is_int left_ty && is_int rght_ty then .ok Ty.int
        else if is_str left_ty && is_str rght_ty then .ok Ty.str
        else .error (ChckErr.err ⟨lo, "Wrong operand types for plus."⟩)
    | CExpn.Mnus left rght _ lo => do
        let left_ty ← CExpn.chck fuel' left defs symt
        let rght_ty ← CExpn.chck fuel' rght defs symt
        if is_int left_ty && is_int rght_ty then .ok Ty.int
        else .error (ChckErr.err ⟨lo, "Wrong operand types for minus."⟩)
    | CExpn.Tmes left rght _ lo => do
        let left_ty ← CExpn.chck fuel' left defs symt
        let rght_ty ← CExpn.chck fuel' rght defs symt
        if is_int left_ty && is_int rght_ty then .ok Ty.int
        else .error (ChckErr.err ⟨lo, "Wrong operand types for times."⟩)
    | CExpn.IDiv left rght _ lo => do
        let left_ty ← CExpn.chck fuel' left defs symt
        let rght_ty ← CExpn.chck fuel' rght defs symt
        if is_int left_ty && is_int rght_ty then .ok Ty.int
        else .error (ChckErr.err ⟨lo, "Wrong operand types for iDiv."⟩)
    | CExpn.IMod left rght _ lo => do
        let left_ty ← CExpn.chck fuel' left defs symt
        let rght_ty ← CExpn.chck fuel' rght defs symt
        if is_int left_ty && is_int rght_ty then .ok Ty.int
        else .error (ChckErr.err ⟨lo, "Wrong operand types for imod."⟩)
    | CExpn.Less left rght _ lo => do
        let left_ty ← CExpn.chck fuel' left defs symt
        let rght_ty ← CExpn.chck fuel' rght defs symt
        if is_int left_ty && is_int rght_ty then .ok Ty.bool
        else .error (ChckErr.err ⟨lo, "Wrong operand types for less."⟩)
    | CExpn.LtEq left rght _ lo => do
        let left_ty ← CExpn.chck fuel' left defs symt
        let rght_ty ← CExpn.chck fuel' rght defs symt
        if is_int left_ty && is_int rght_ty then .ok Ty.bool
        else .error (ChckErr.err ⟨lo, "Wrong operand types for less than or equal to."⟩)
    | CExpn.Eqal left rght _ _ => do
        let _ ← CExpn.chck fuel' left defs symt
        let _ ← CExpn.chck fuel' rght defs symt
        .ok Ty.bool
    | CExpn.Conj left rght _ _ => do
        let _ ← CExpn.chck fuel' left defs symt
        let _ ← CExpn.chck fuel' rght defs symt
        .ok Ty.bool
    | CExpn.Disj left rght _ _ => do
        let _ ← CExpn.chck fuel' left defs symt
        let _ ← CExpn.chck fuel' rght defs symt
        .ok Ty.bool
    | CExpn.Negt expn _ _ => do
        let _ ← CExpn.chck fuel' expn defs symt
        .ok Ty.bool
    | CExpn.Ltrl valu _ _ =>
        match valu with
        | Valu.VInt _ => .ok Ty.int
        | Valu.VStr _ => .ok Ty.str
        | Valu.VBool _ => .ok Ty.bool
        | Valu.VNone => .ok Ty.none
    | CExpn.Lkup name _ lo =>
        match symt.get_info name with
        | some info => .ok info.type
        | Option.none => .error (ChckErr.err ⟨lo, "Unknown identifier."⟩)
    | CExpn.Inpt expn _ lo => do
        let expn_ty ← CExpn.chck fuel' expn defs symt
        if is_str expn_ty then .ok Ty.str
        else .error (ChckErr.err ⟨lo, "Wrong expression type for input, expected str."⟩)
    | CExpn.IntC expn _ lo => do
        let expn_ty ← CExpn.chck fuel' expn defs symt
        if is_None expn_ty then
          .error (ChckErr.err ⟨lo, "Cannot convert nonetype to int"⟩)
        else .ok Ty.int
    | CExpn.StrC expn _ lo => do
        let expn_ty ← CExpn.chck fuel' expn defs symt
        if is_None expn_ty then
          .error (ChckErr.err ⟨lo, "Cannot convert nonetype to str"⟩)
        else .ok Ty.str
termination_by structural fuel

/-- The argument loop of Func::chck and Proc::chck: each argument's type
must equal the matching formal's recorded type.  The missing-formal branch
models map::at's std::out_of_range and is unreachable behind the arity
check. -/
def chckArgs (fuel : Nat) (args : List CExpn) (i : Nat) (d : CDefn) (defs : CDefs)
    (symt : SymT) (lo : Locn) : Except ChckErr Unit :=
  match fuel with
  | 0 => .error ChckErr.out_of_fuel
  | fuel' + 1 =>
    match args with
    | [] => .ok ()
    | a :: rest => do
        let arg_ty ← CExpn.chck fuel' a defs symt
        match d.symt.get_frml i with
        | some info =>
            if arg_ty ≠ info.type then
              .error (ChckErr.err ⟨lo, "Type mismatch in argument for function call."⟩)
            else chckArgs fuel' rest (i + 1) d defs symt lo
        | Option.none => .error (ChckErr.err ⟨lo, "std::out_of_range"⟩)
termination_by structural fuel

/-- The argument loop of Prnt::chck: arguments are checked and their types
discarded. -/
def chckPrms (fuel : Nat) (prms : List CExpn) (defs : CDefs) (symt : SymT) :
    Except ChckErr Unit :=
  match fuel with
  | 0 => .error ChckErr.out_of_fuel
  | fuel' + 1 =>
    match prms with
    | [] => .ok ()
    | e :: rest => do
        let _ ← CExpn.chck fuel' e defs symt
        chckPrms fuel' rest defs symt
termination_by structural fuel

/-- Modelled from the spec: TiEq::chck is declared in dwislpy-ast.hh but its
body is not among the src translation units.  Per the spec, `x *= e` checks
like the other compound assignments -- the variable must be introduced and
the expression's type must equal its recorded type -- and in addition
"compound assignments reject non-numeric types in line with their eventual
arithmetic": the eventual arithmetic of `*=` is the int-only MLT, so a
non-int operand type is rejected at check time. -/
def TiEq_chck (fuel : Nat) (name : String) (expn : CExpn) (lo : Locn) (defs : CDefs)
    (symt : SymT) : Except ChckErr (Rtns × SymT) :=
  match fuel with
  | 0 => .error ChckErr.out_of_fuel
  | fuel' + 1 =>
    match symt.get_info name with
    | Option.none =>
        .error (ChckErr.err ⟨lo, "Variable '" ++ name ++ "' never introduced."⟩)
    | some info => do
        let expn_ty ← CExpn.chck fuel' expn defs symt
        if info.type ≠ expn_ty then
          .error (ChckErr.err ⟨expn.locnOf,
            "Type mismatch. Expected expression of type " ++ type_name info.type ++ "."⟩)
        else if is_int info.type then .ok (Rtns.void, symt)
        else
          .error (ChckErr.err ⟨lo, "Wrong operand types for times equals."⟩)

/-- Stmt::chck from dwislpy-check.cc: the return behavior of a statement,
threading the symbol table (Ntro::chck adds to it). -/
def CStmt.chck (fuel : Nat) (s : CStmt) (expd : Rtns) (defs : CDefs) (symt : SymT) :
    Except ChckErr (Rtns × SymT) :=
  match fuel with
  | 0 => .error ChckErr.out_of_fuel
  | fuel' + 1 =>
    match s with
    | CStmt.Ntro name type expn lo =>
        let (_, symt1) := symt.add_locl name type
        match symt1.get_info name with
        | some info => do
            let expn_ty ← CExpn.chck fuel' expn defs symt1
            if info.type ≠ expn_ty then
              .error (ChckErr.err ⟨expn.locnOf,
                "Type mismatch. Expected expression of type " ++ type_name info.type ++ "."⟩)
            else .ok (Rtns.void, symt1)
        -- Unreachable: the name was just added; map::at cannot miss.
        | Option.none => .error (ChckErr.err ⟨lo, "std::out_of_range"⟩)
    | CStmt.Asgn name expn lo =>
        match symt.get_info name with
        | Option.none =>
            .error (ChckErr.err ⟨lo, "Variable '" ++ name ++ "' never introduced."⟩)
        | some info => do
            let expn_ty ← CExpn.chck fuel' expn defs symt
            if info.type ≠ expn_ty then
              .error (ChckErr.err ⟨expn.locnOf,
                "Type mismatch. Expected expression of type " ++ type_name info.type ++ "."⟩)
            else .ok (Rtns.void, symt)
    | CStmt.PlEq name expn lo =>
        match symt.get_info name with
        | Option.none =>
            .error (ChckErr.err ⟨lo, "Variable '" ++ name ++ "' never introduced."⟩)
        | some info => do
            let expn_ty ← CExpn.chck fuel' expn defs symt
            if info.type ≠ expn_ty then
              .error (ChckErr.err ⟨expn.locnOf,
                "Type mismatch. Expected expression of type " ++ type_name info.type ++ "."⟩)
            else .ok (Rtns.void, symt)
    | CStmt.MiEq name expn lo =>
        match symt.get_info name with
        | Option.none =>
            .error (ChckErr.err ⟨lo, "Variable '" ++ name ++ "' never introduced."⟩)
        | some info => do
            let expn_ty ← CExpn.chck fuel' expn defs symt
            if info.type ≠ expn_ty then
              .error (ChckErr.err ⟨expn.locnOf,
                "Type mismatch. Expected expression of type " ++ type_name info.type ++ "."⟩)
            else .ok (Rtns.void, symt)
    | CStmt.TiEq name expn lo => TiEq_chck fuel' name expn lo defs symt
    | CStmt.Pass _ => .ok (Rtns.void, symt)
    | CStmt.Prnt prms _ => do
        chckPrms fuel' prms defs symt
        .ok (Rtns.void, symt)
    | CStmt.Whle expn blck lo => do
        let _ ← CExpn.chck fuel' expn defs symt
        let (blck_rt, symt1) ← CBlck.chck fuel' blck expd defs symt
        let r ← liftPlus (plus lo blck_rt Rtns.void)
        .ok (r, symt1)
    | CStmt.Tern expn if_blck else_blck lo => do
        let _ ← CExpn.chck fuel' expn defs symt
        let (if_rt, symt1) ← CBlck.chck fuel' if_blck expd defs symt
        let (else_rt, symt2) ← CBlck.chck fuel' else_blck expd defs symt1
        let r ← liftPlus (plus lo if_rt else_rt)
        .ok (r, symt2)
    | CStmt.Retn lo =>
        -- Retn::chck: expn_ty is NoneTy; on success the source returns
        -- `Rtns { Type {}}`, whose default-constructed Type is IntTy.
        match expd with
        | Rtns.ty _ =>
            if Ty.none = type_of expd then .ok (Rtns.ty Ty.int, symt)
            else .error (ChckErr.err ⟨lo, "Type mismatch for procedure return."⟩)
        | Rtns.voidOr t =>
            if Ty.none = t then .ok (Rtns.ty Ty.int, symt)
            else .error (ChckErr.err ⟨lo, "Type mismatch for procedure return."⟩)
        | Rtns.void =>
            .error (ChckErr.err ⟨lo, "Unexpected return for void procedure."⟩)
    | CStmt.RetE expn lo => do
        let expn_ty ← CExpn.chck fuel' expn defs symt
        -- RetE::chck: on success the source returns `Rtns { Type {}}`,
        -- whose default-constructed Type is IntTy (not expn_ty).
        match expd with
        | Rtns.ty _ =>
            if expn_ty = type_of expd then .ok (Rtns.ty Ty.int, symt)
            else .error (ChckErr.err ⟨lo, "Type mismatch for function return."⟩)
        | Rtns.voidOr t =>
            if expn_ty = t then .ok (Rtns.ty Ty.int, symt)
            else .error (ChckErr.err ⟨lo, "Type mismatch for function return."⟩)
        | Rtns.void =>
            .error (ChckErr.err ⟨lo, "Unexpected return for void function."⟩)
    | CStmt.Proc name args lo =>
        match defsGet name defs with
        | Option.none =>
            .error (ChckErr.err ⟨lo, "Type error: procedure '" ++ name ++ "'"
              ++ " is not defined."⟩)
        | some d =>
            if d.rety ≠ Ty.none then
              .error (ChckErr.err ⟨lo, "Error: Function called as procedure."⟩)
            else if d.symt.get_frmls_size ≠ args.length then
              .error (ChckErr.err ⟨lo, "Incorrect number of args found for function " ++ name
                ++ ": expected " ++ Nat.repr d.symt.get_frmls_size ++ ", saw "
                ++ Nat.repr args.length ++ "."⟩)
            else do
              chckArgs fuel' args 0 d defs symt lo
              .ok (Rtns.void, symt)
termination_by structural fuel

/-- The statement fold of Blck::chck (dwislpy-check.cc lines 162-225): the
accumulator starts Void; a Void accumulator is replaced by the statement's
behavior; a VoidOr accumulator is replaced only by a definite type; a
definite accumulator is kept. -/
def chckStmts (fuel : Nat) (stmts : List CStmt) (expd : Rtns) (defs : CDefs)
    (symt : SymT) (retn : Rtns) : Except ChckErr (Rtns × SymT) :=
  match fuel with
  | 0 => .error ChckErr.out_of_fuel
  | fuel' + 1 =>
    match stmts with
    | [] => .ok (retn, symt)
    | s :: rest => do
        let (stmt_rtns, symt1) ← CStmt.chck fuel' s expd defs symt
        let retn' :=
          match retn with
          | Rtns.void => stmt_rtns
          | Rtns.voidOr _ =>
              match stmt_rtns with
              | Rtns.ty _ => stmt_rtns
              | _ => retn
          | Rtns.ty _ => retn
        chckStmts fuel' rest expd defs symt1 retn'
termination_by structural fuel

/-- Blck::chck from dwislpy-check.cc. -/
def CBlck.chck (fuel : Nat) (b : CBlck) (expd : Rtns) (defs : CDefs) (symt : SymT) :
    Except ChckErr (Rtns × SymT) :=
  match fuel with
  | 0 => .error ChckErr.out_of_fuel
  | fuel' + 1 =>
    match b with
    | CBlck.mk stmts _ => chckStmts fuel' stmts expd defs symt Rtns.void
termination_by structural fuel

end

/-- Defn::chck from dwislpy-check.cc (lines 152-160): the body is checked
against `Rtns { Type { rety }}` and the result must not be Void or VoidOr.
The carried type of a definite result is never compared to rety. -/
def CDefn.chck (fuel : Nat) (d : CDefn) (defs : CDefs) : Except ChckErr Unit :=
  match fuel with
  | 0 => .error ChckErr.out_of_fuel
  | fuel' + 1 => do
    let (rtns, _) ← CBlck.chck fuel' d.blck (Rtns.ty d.rety) defs d.symt
    match rtns with
    | Rtns.void => .error (ChckErr.err ⟨d.blck.locnOf, "Definition body never returns."⟩)
    | Rtns.voidOr _ =>
        .error (ChckErr.err ⟨d.blck.locnOf, "Definition body might not return."⟩)
    | Rtns.ty _ => .ok ()

/-- The definition loop of Prgm::chck. -/
def chckDefs (fuel : Nat) (ds : CDefs) (defs : CDefs) : Except ChckErr Unit :=
  match fuel with
  | 0 => .error ChckErr.out_of_fuel
  | fuel' + 1 =>
    match ds with
    | [] => .ok ()
    | (_, d) :: rest => do
        CDefn.chck fuel' d defs
        chckDefs fuel' rest defs

/-- Prgm::chck from dwislpy-check.cc (lines 141-149): check every
definition, then check main against Void.  When main's behavior is not Void
the source constructs `DwislpyError(main->where(), "Main script should not
return.")` but does not throw it, so checking still succeeds. -/
def CPrgm.chck (fuel : Nat) (p : CPrgm) : Except ChckErr Unit :=
  match fuel with
  | 0 => .error ChckErr.out_of_fuel
  | fuel' + 1 => do
    chckDefs fuel' p.defs p.defs
    let (rtns, _) ← CBlck.chck fuel' p.main Rtns.void p.defs p.main_symt
    match rtns with
    | Rtns.void => .ok ()
    | _ => .ok ()

/-!
The IR and the AST-to-IR translation of dwislpy-inst.hh / dwislpy-inst.cc.

In the source, a per-definition SymT delegates add_labl and add_strg to the
shared root table, whose counter is distinct from the local temp counter.
The embedding threads a single SymT through a translation; this conflates
the two counters, which only renames fresh labels and is immaterial to the
theorems below (they concern the root table's own operations and whether
any code is emitted at all, not the spelling of fresh names).
-/

/-- INST from dwislpy-inst.hh: the pseudo-instructions of the IR. -/
inductive INST where
  | SET (dst : String) (val : Int)
  | STL (dst lbl : String)
  | MOV (dst src : String)
  | ADD (dst src1 src2 : String)
  | MLT (dst src1 src2 : String)
  | DIV (dst src1 src2 : String)
  | MOD (dst src1 src2 : String)
  | SUB (dst src1 src2 : String)
  | NOP
  | LBL (lbl : String)
  | BCN (cndn src1 src2 lblt lblf : String)
  | BCZ (cndn src lblt lblf : String)
  | JMP (lbl : String)
  | ENTER
  | RTN (src : String)
  | LEAVE
  | ARG (idx : Int) (src : String)
  | RTV (dst : String)
  | CLL (lbl : String)
  | GTI (dst : String)
  | PTI (src : String)
  | PTS (src : String)
  | CMT (msg : String)
deriving DecidableEq

/-- A translation outcome: the std::bad_variant_access that
Ltrl::trans_cndn's unguarded std::get of a bool would throw on a non-bool
literal, or the fuel artifact of the embedding. -/
inductive TransErr where
  | bad_variant_access
  | out_of_fuel
deriving DecidableEq

/-- The Expn::type annotation of a node (dwislpy-ast.hh line 516), read by
the translation. -/
def CExpn.typeOf : CExpn → Ty
  | CExpn.Func _ _ t _ => t
  | CExpn.Plus _ _ t _ => t
  | CExpn.Mnus _ _ t _ => t
  | CExpn.Tmes _ _ t _ => t
  | CExpn.IDiv _ _ t _ => t
  | CExpn.IMod _ _ t _ => t
  | CExpn.Less _ _ t _ => t
  | CExpn.LtEq _ _ t _ => t
  | CExpn.Eqal _ _ t _ => t
  | CExpn.Conj _ _ t _ => t
  | CExpn.Disj _ _ t _ => t
  | CExpn.Negt _ t _ => t
  | CExpn.Ltrl _ t _ => t
  | CExpn.Lkup _ t _ => t
  | CExpn.Inpt _ t _ => t
  | CExpn.IntC _ t _ => t
  | CExpn.StrC _ t _ => t

/-- The interning sequence at the start of Prgm::trans (dwislpy-inst.cc
lines 34-42): the five standard string constants added, in order, to the
freshly created global SymT. -/
def glbl_init_0 : String × SymT := SymT.empty.add_strg "\n"

/-- Label of the end-of-line string constant. -/
def EOLN_STRG_LBL : String := glbl_init_0.1

/-- The global SymT after interning "True". -/
def glbl_init_1 : String × SymT := glbl_init_0.2.add_strg "True"

/-- Label of the "True" string constant. -/
def TRUE_STRG_LBL : String := glbl_init_1.1

/-- The global SymT after interning "False". -/
def glbl_init_2 : String × SymT := glbl_init_1.2.add_strg "False"

/-- Label of the "False" string constant. -/
def FLSE_STRG_LBL : String := glbl_init_2.1

/-- The global SymT after interning "None". -/
def glbl_init_3 : String × SymT := glbl_init_2.2.add_strg "None"

/-- Label of the "None" string constant. -/
def NONE_STRG_LBL : String := glbl_init_3.1

/-- The global SymT after interning the 80-character input buffer. -/
def glbl_init_4 : String × SymT :=
  glbl_init_3.2.add_strg
    "12345678901234567890123456789012345678901234567890123456789012345678901234567890"

/-- Label of the input buffer. -/
def INPT_BUFF_LBL : String := glbl_init_4.1

/-- The global SymT as Prgm::trans leaves it before translating any
definition. -/
def glbl_init : SymT := glbl_init_4.2

/-- The argument-placing loop of Proc::trans and Func::trans: while the
collected temporaries are nonempty, emit ARG(srcs.size()-1, srcs.back())
and pop, i.e. ARG instructions indexed from the last argument down to the
first. -/
def emitArgs (srcs : List String) : List INST :=
  (srcs.enum.map (fun p => INST.ARG (Int.ofNat p.1) p.2)).reverse

mutual

/-- Expn::trans from dwislpy-inst.cc: value-mode translation placing the
expression's value into `dest`, appending instructions to `code` and
allocating temps and labels in `symt`.  Arithmetic nodes whose type
annotation is not IntTy emit nothing (their source bodies are guarded by
holds_alternative of IntTy); IntC and StrC emit nothing. -/
def CExpn.trans (fuel : Nat) (e : CExpn) (dest : String) (symt : SymT)
    (code : List INST) : Except TransErr (SymT × List INST) :=
  match fuel with
  | 0 => .error TransErr.out_of_fuel
  | fuel' + 1 =>
    match e with
    | CExpn.Plus left rght type _ =>
        match type with
        | Ty.int => do
            let (srce1, symt1) := symt.add_temp left.typeOf
            let (srce2, symt2) := symt1.add_temp rght.typeOf
            let (symt3, code1) ← CExpn.trans fuel' left srce1 symt2 code
            let (symt4, code2) ← CExpn.trans fuel' rght srce2 symt3 code1
            .ok (symt4, code2 ++ [INST.ADD dest srce1 srce2])
        -- The str case of Plus::trans is commented out in the source.
        | _ => .ok (symt, code)
    | CExpn.Mnus left rght type _ =>
        match type with
        | Ty.int => do
            let (srce1, symt1) := symt.add_temp left.typeOf
            let (srce2, symt2) := symt1.add_temp rght.typeOf
            let (symt3, code1) ← CExpn.trans fuel' left srce1 symt2 code
            let (symt4, code2) ← CExpn.trans fuel' rght srce2 symt3 code1
            .ok (symt4, code2 ++ [INST.SUB dest srce1 srce2])
        | _ => .ok (symt, code)
    | CExpn.Tmes left rght type _ =>
        match type with
        | Ty.int => do
            let (srce1, symt1) := symt.add_temp left.typeOf
            let (srce2, symt2) := symt1.add_temp rght.typeOf
            let (symt3, code1) ← CExpn.trans fuel' left srce1 symt2 code
            let (symt4, code2) ← CExpn.trans fuel' rght srce2 symt3 code1
            .ok (symt4, code2 ++ [INST.MLT dest srce1 srce2])
        | _ => .ok (symt, code)
    | CExpn.IMod left rght type _ =>
        match type with
        | Ty.int => do
            let (srce1, symt1) := symt.add_temp left.typeOf
            let (srce2, symt2) := symt1.add_temp rght.typeOf
            let (symt3, code1) ← CExpn.trans fuel' left srce1 symt2 code
            let (symt4, code2) ← CExpn.trans fuel' rght srce2 symt3 code1
            .ok (symt4, code2 ++ [INST.MOD dest srce1 srce2])
        | _ => .ok (symt, code)
    | CExpn.IDiv left rght type _ =>
        match type with
        | Ty.int => do
            let (srce1, symt1) := symt.add_temp left.typeOf
            let (srce2, symt2) := symt1.add_temp rght.typeOf
            let (symt3, code1) ← CExpn.trans fuel' left srce1 symt2 code
            let (symt4, code2) ← CExpn.trans fuel' rght srce2 symt3 code1
            .ok (symt4, code2 ++ [INST.DIV dest srce1 srce2])
        | _ => .ok (symt, code)
    | CExpn.Less left rght type lo => do
        let (true_lbl, symt1) := symt.add_labl
        let (flse_lbl, symt2) := symt1.add_labl
        let (done_lbl, symt3) := symt2.add_labl
        let (symt4, code1) ←
          CExpn.trans_cndn fuel' (CExpn.Less left rght type lo) true_lbl flse_lbl symt3 code
        .ok (symt4, code1 ++ [INST.LBL true_lbl, INST.SET dest 1, INST.JMP done_lbl,
          INST.LBL flse_lbl, INST.SET dest 0, INST.LBL done_lbl])
    | CExpn.Eqal left rght type lo => do
        let (true_lbl, symt1) := symt.add_labl
        let (flse_lbl, symt2) := symt1.add_labl
        let (done_lbl, symt3) := symt2.add_labl
        let (symt4, code1) ←
          CExpn.trans_cndn fuel' (CExpn.Eqal left rght type lo) true_lbl flse_lbl symt3 code
        .ok (symt4, code1 ++ [INST.LBL true_lbl, INST.SET dest 1, INST.JMP done_lbl,
          INST.LBL flse_lbl, INST.SET dest 0, INST.LBL done_lbl])
    | CExpn.LtEq left rght type lo => do
        let (true_lbl, symt1) := symt.add_labl
        let (flse_lbl, symt2) := symt1.add_labl
        let (done_lbl, symt3) := symt2.add_labl
        let (symt4, code1) ←
          CExpn.trans_cndn fuel' (CExpn.LtEq left rght type lo) true_lbl flse_lbl symt3 code
        .ok (symt4, code1 ++ [INST.LBL true_lbl, INST.SET dest 1, INST.JMP done_lbl,
          INST.LBL flse_lbl, INST.SET dest 0, INST.LBL done_lbl])
    | CExpn.Conj left rght type lo => do
        let (true_lbl, symt1) := symt.add_labl
        let (flse_lbl, symt2) := symt1.add_labl
        let (done_lbl, symt3) := symt2.add_labl
        let (symt4, code1) ←
          CExpn.trans_cndn fuel' (CExpn.Conj left rght type lo) true_lbl flse_lbl symt3 code
        .ok (symt4, code1 ++ [INST.LBL true_lbl, INST.SET dest 1, INST.JMP done_lbl,
          INST.LBL flse_lbl, INST.SET dest 0, INST.LBL done_lbl])
    | CExpn.Disj left rght type lo => do
        let (true_lbl, symt1) := symt.add_labl
        let (flse_lbl, symt2) := symt1.add_labl
        let (done_lbl, symt3) := symt2.add_labl
        let (symt4, code1) ←
          CExpn.trans_cndn fuel' (CExpn.Disj left rght type lo) true_lbl flse_lbl symt3 code
        .ok (symt4, code1 ++ [INST.LBL true_lbl, INST.SET dest 1, INST.JMP done_lbl,
          INST.LBL flse_lbl, INST.SET dest 0, INST.LBL done_lbl])
    | CExpn.Negt expn type lo => do
        let (true_lbl, symt1) := symt.add_labl
        let (flse_lbl, symt2) := symt1.add_labl
        let (done_lbl, symt3) := symt2.add_labl
        let (symt4, code1) ←
          CExpn.trans_cndn fuel' (CExpn.Negt expn type lo) true_lbl flse_lbl symt3 code
        .ok (symt4, code1 ++ [INST.LBL true_lbl, INST.SET dest 1, INST.JMP done_lbl,
          INST.LBL flse_lbl, INST.SET dest 0, INST.LBL done_lbl])
    | CExpn.Ltrl valu _ _ =>
        match valu with
        | Valu.VInt i => .ok (symt, code ++ [INST.SET dest i])
        | Valu.VStr s =>
            let (strg_lbl, symt1) := symt.add_strg s
            .ok (symt1, code ++ [INST.STL dest strg_lbl])
        | Valu.VBool b =>
            .ok (symt, code ++ [INST.SET dest (if b then 1 else 0)])
        | Valu.VNone => .ok (symt, code ++ [INST.SET dest 0])
    | CExpn.Lkup name _ _ => .ok (symt, code ++ [INST.MOV dest name])
    | CExpn.Inpt expn _ _ => do
        let (strg, symt1) := symt.add_temp Ty.str
        let (symt2, code1) ← CExpn.trans fuel' expn strg symt1 code
        .ok (symt2, code1 ++ [INST.PTS strg, INST.GTI dest])
    | CExpn.IntC _ _ _ => .ok (symt, code)
    | CExpn.StrC _ _ _ => .ok (symt, code)
    | CExpn.Func name args type lo => do
        let (srcs, symt1, code1) ←
          transArgsEval fuel' args symt code []
        let _ := (type, lo)
        .ok (symt1, code1 ++ emitArgs srcs ++ [INST.CLL name, INST.RTV dest])
termination_by structural fuel

/-- The argument-evaluation loop of Proc::trans and Func::trans: allocate a
temp per argument (typed by the argument's annotation) and translate the
argument into it, collecting the temp names in order. -/
def transArgsEval (fuel : Nat) (args : List CExpn) (symt : SymT) (code : List INST)
    (acc : List String) : Except TransErr (List String × SymT × List INST) :=
  match fuel with
  | 0 => .error TransErr.out_of_fuel
  | fuel' + 1 =>
    match args with
    | [] => .ok (acc, symt, code)
    | aexp :: rest => do
        let (t, symt1) := symt.add_temp aexp.typeOf
        let (symt2, code1) ← CExpn.trans fuel' aexp t symt1 code
        transArgsEval fuel' rest symt2 code1 (acc ++ [t])
termination_by structural fuel

/-- Expn::trans_cndn from dwislpy-inst.cc: condition-mode translation.  The
base-class default (lines 297-305) is an empty stub -- it emits nothing --
and is inherited by every class that does not override it (Plus, Mnus,
Tmes, IDiv, IMod, Inpt, IntC, StrC).  The overriding classes are Func,
Conj, Disj, Less, LtEq, Eqal, Negt, Ltrl and Lkup, per dwislpy-ast.hh. -/
def CExpn.trans_cndn (fuel : Nat) (e : CExpn) (then_lbl else_lbl : String)
    (symt : SymT) (code : List INST) : Except TransErr (SymT × List INST) :=
  match fuel with
  | 0 => .error TransErr.out_of_fuel
  | fuel' + 1 =>
    match e with
    | CExpn.Less left rght _ _ =>
        match left.typeOf, rght.typeOf with
        | Ty.int, Ty.int => do
            let (srce1, symt1) := symt.add_temp left.typeOf
            let (srce2, symt2) := symt1.add_temp rght.typeOf
            let (symt3, code1) ← CExpn.trans fuel' left srce1 symt2 code
            let (symt4, code2) ← CExpn.trans fuel' rght srce2 symt3 code1
            .ok (symt4, code2 ++ [INST.BCN "lt" srce1 srce2 then_lbl else_lbl])
        | _, _ => .ok (symt, code)
    | CExpn.Eqal left rght _ _ =>
        match left.typeOf, rght.typeOf with
        | Ty.int, Ty.int => do
            let (srce1, symt1) := symt.add_temp left.typeOf
            let (srce2, symt2) := symt1.add_temp rght.typeOf
            let (symt3, code1) ← CExpn.trans fuel' left srce1 symt2 code
            let (symt4, code2) ← CExpn.trans fuel' rght srce2 symt3 code1
            .ok (symt4, code2 ++ [INST.BCN "eq" srce1 srce2 then_lbl else_lbl])
        | _, _ => .ok (symt, code)
    | CExpn.LtEq left rght _ _ =>
        match left.typeOf, rght.typeOf with
        | Ty.int, Ty.int => do
            let (srce1, symt1) := symt.add_temp left.typeOf
            let (srce2, symt2) := symt1.add_temp rght.typeOf
            let (symt3, code1) ← CExpn.trans fuel' left srce1 symt2 code
            let (symt4, code2) ← CExpn.trans fuel' rght srce2 symt3 code1
            .ok (symt4, code2 ++ [INST.BCN "le" srce1 srce2 then_lbl else_lbl])
        | _, _ => .ok (symt, code)
    | CExpn.Func name args type lo => do
        let (srce1, symt1) := symt.add_temp type
        let (symt2, code1) ←
          CExpn.trans fuel' (CExpn.Func name args type lo) srce1 symt1 code
        -- BCZ eqz: branches to else_lbl when the value is zero, to then_lbl
        -- otherwise (the labels are passed swapped in the source).
        .ok (symt2, code1 ++ [INST.BCZ "eqz" srce1 else_lbl then_lbl])
    | CExpn.Conj left rght _ _ => do
        let (cont_lbl, symt1) := symt.add_labl
        let (symt2, code1) ← CExpn.trans_cndn fuel' left cont_lbl else_lbl symt1 code
        CExpn.trans_cndn fuel' rght then_lbl else_lbl symt2 (code1 ++ [INST.LBL cont_lbl])
    | CExpn.Disj left rght _ _ => do
        let (cont_lbl, symt1) := symt.add_labl
        let (symt2, code1) ← CExpn.trans_cndn fuel' left then_lbl cont_lbl symt1 code
        CExpn.trans_cndn fuel' rght then_lbl else_lbl symt2 (code1 ++ [INST.LBL cont_lbl])
    | CExpn.Negt expn _ _ =>
        CExpn.trans_cndn fuel' expn else_lbl then_lbl symt code
    | CExpn.Ltrl valu _ _ =>
        -- Ltrl::trans_cndn does an unguarded std::get of bool.
        match valu with
        | Valu.VBool b =>
            if b then .ok (symt, code ++ [INST.JMP then_lbl])
            else .ok (symt, code ++ [INST.JMP else_lbl])
        | _ => .error TransErr.bad_variant_access
    | CExpn.Lkup name _ _ =>
        .ok (symt, code ++ [INST.BCZ "gtz" name then_lbl else_lbl])
    -- Every remaining class inherits the empty default.
    | CExpn.Plus _ _ _ _ => .ok (symt, code)
    | CExpn.Mnus _ _ _ _ => .ok (symt, code)
    | CExpn.Tmes _ _ _ _ => .ok (symt, code)
    | CExpn.IDiv _ _ _ _ => .ok (symt, code)
    | CExpn.IMod _ _ _ _ => .ok (symt, code)
    | CExpn.Inpt _ _ _ => .ok (symt, code)
    | CExpn.IntC _ _ _ => .ok (symt, code)
    | CExpn.StrC _ _ _ => .ok (symt, code)
termination_by structural fuel

/-- Stmt::trans from dwislpy-inst.cc: statement translation; `exitLbl` is
the enclosing function's epilogue label that return statements jump to. -/
def CStmt.trans (fuel : Nat) (s : CStmt) (exitLbl : String) (symt : SymT)
    (code : List INST) : Except TransErr (SymT × List INST) :=
  match fuel with
  | 0 => .error TransErr.out_of_fuel
  | fuel' + 1 =>
    match s with
    | CStmt.Ntro name _ expn _ => CExpn.trans fuel' expn name symt code
    | CStmt.Asgn name expn _ => CExpn.trans fuel' expn name symt code
    | CStmt.PlEq name expn _ => do
        let (srce1, symt1) := symt.add_temp expn.typeOf
        let code1 := code ++ [INST.MOV srce1 name]
        let (srce2, symt2) := symt1.add_temp expn.typeOf
        let (symt3, code2) ← CExpn.trans fuel' expn srce2 symt2 code1
        .ok (symt3, code2 ++ [INST.ADD name srce1 srce2])
    | CStmt.MiEq name expn _ => do
        let (srce1, symt1) := symt.add_temp expn.typeOf
        let code1 := code ++ [INST.MOV srce1 name]
        let (srce2, symt2) := symt1.add_temp expn.typeOf
        let (symt3, code2) ← CExpn.trans fuel' expn srce2 symt2 code1
        .ok (symt3, code2 ++ [INST.SUB name srce1 srce2])
    | CStmt.TiEq name expn _ => do
        let (srce1, symt1) := symt.add_temp expn.typeOf
        let code1 := code ++ [INST.MOV srce1 name]
        let (srce2, symt2) := symt1.add_temp expn.typeOf
        let (symt3, code2) ← CExpn.trans fuel' expn srce2 symt2 code1
        .ok (symt3, code2 ++ [INST.MLT name srce1 srce2])
    | CStmt.Whle expn blck _ => do
        let (loop_lbl, symt1) := symt.add_labl
        let (cont_lbl, symt2) := symt1.add_labl
        let (done_lbl, symt3) := symt2.add_labl
        let code1 := code ++ [INST.LBL loop_lbl]
        let (symt4, code2) ← CExpn.trans_cndn fuel' expn cont_lbl done_lbl symt3 code1
        let (symt5, code3) ← CBlck.trans fuel' blck exitLbl symt4 (code2 ++ [INST.LBL cont_lbl])
        .ok (symt5, code3 ++ [INST.JMP loop_lbl, INST.LBL done_lbl])
    | CStmt.Tern expn if_blck else_blck _ => do
        let (if_lbl, symt1) := symt.add_labl
        let (else_lbl, symt2) := symt1.add_labl
        let (done_lbl, symt3) := symt2.add_labl
        let (symt4, code1) ← CExpn.trans_cndn fuel' expn if_lbl else_lbl symt3 code
        let (symt5, code2) ← CBlck.trans fuel' if_blck exitLbl symt4 (code1 ++ [INST.LBL if_lbl])
        let (symt6, code3) ←
          CBlck.trans fuel' else_blck exitLbl symt5
            (code2 ++ [INST.JMP done_lbl, INST.LBL else_lbl])
        .ok (symt6, code3 ++ [INST.LBL done_lbl])
    | CStmt.RetE expn _ => do
        let (temp, symt1) := symt.add_temp expn.typeOf
        let (symt2, code1) ← CExpn.trans fuel' expn temp symt1 code
        .ok (symt2, code1 ++ [INST.RTN temp, INST.JMP exitLbl])
    | CStmt.Retn _ =>
        let (temp, symt1) := symt.add_temp Ty.none
        .ok (symt1, code ++ [INST.SET temp 0, INST.RTN temp, INST.JMP exitLbl])
    | CStmt.Pass _ => .ok (symt, code ++ [INST.NOP])
    | CStmt.Prnt prms _ => transPrnt fuel' prms symt code
    | CStmt.Proc name args _ => do
        let (srcs, symt1, code1) ← transArgsEval fuel' args symt code []
        .ok (symt1, code1 ++ emitArgs srcs ++ [INST.CLL name])
termination_by structural fuel

/-- The argument loop of Prnt::trans: each argument is emitted according to
its type annotation, followed by the end-of-line string. -/
def transPrnt (fuel : Nat) (prms : List CExpn) (symt : SymT) (code : List INST) :
    Except TransErr (SymT × List INST) :=
  match fuel with
  | 0 => .error TransErr.out_of_fuel
  | fuel' + 1 =>
    match prms with
    | [] => .ok (symt, code)
    | expn :: rest => do
        let (symtA, codeA) ←
          match expn.typeOf with
          | Ty.int => do
              let (temp, symt1) := symt.add_temp Ty.int
              let (symt2, code1) ← CExpn.trans fuel' expn temp symt1 code
              pure (symt2, code1 ++ [INST.PTI temp])
          | Ty.str => do
              let (temp, symt1) := symt.add_temp Ty.str
              let (symt2, code1) ← CExpn.trans fuel' expn temp symt1 code
              pure (symt2, code1 ++ [INST.PTS temp])
          | Ty.bool => do
              let (true_lbl, symt1) := symt.add_labl
              let (flse_lbl, symt2) := symt1.add_labl
              let (done_lbl, symt3) := symt2.add_labl
              let (temp, symt4) := symt3.add_temp Ty.bool
              let (symt5, code1) ← CExpn.trans_cndn fuel' expn true_lbl flse_lbl symt4 code
              pure (symt5, code1 ++ [INST.LBL true_lbl, INST.STL temp TRUE_STRG_LBL,
                INST.JMP done_lbl, INST.LBL flse_lbl, INST.STL temp FLSE_STRG_LBL,
                INST.LBL done_lbl, INST.PTS temp])
          | Ty.none => do
              let (dumm, symt1) := symt.add_temp Ty.none
              let (temp, symt2) := symt1.add_temp Ty.str
              let (symt3, code1) ← CExpn.trans fuel' expn dumm symt2 code
              pure (symt3, code1 ++ [INST.STL temp NONE_STRG_LBL, INST.PTS temp])
        let (eoln, symtB) := symtA.add_temp Ty.str
        transPrnt fuel' rest symtB
          (codeA ++ [INST.STL eoln EOLN_STRG_LBL, INST.PTS eoln])
termination_by structural fuel

/-- The statement loop of Blck::trans. -/
def transStmts (fuel : Nat) (stmts : List CStmt) (exitLbl : String) (symt : SymT)
    (code : List INST) : Except TransErr (SymT × List INST) :=
  match fuel with
  | 0 => .error TransErr.out_of_fuel
  | fuel' + 1 =>
    match stmts with
    | [] => .ok (symt, code)
    | s :: rest => do
        let (symt1, code1) ← CStmt.trans fuel' s exitLbl symt code
        transStmts fuel' rest exitLbl symt1 code1
termination_by structural fuel

/-- Blck::trans from dwislpy-inst.cc. -/
def CBlck.trans (fuel : Nat) (b : CBlck) (exitLbl : String) (symt : SymT)
    (code : List INST) : Except TransErr (SymT × List INST) :=
  match fuel with
  | 0 => .error TransErr.out_of_fuel
  | fuel' + 1 =>
    match b with
    | CBlck.mk stmts _ => transStmts fuel' stmts exitLbl symt code
termination_by structural fuel

end

/-- Defn::trans from dwislpy-inst.cc (lines 73-82): label the prologue with
the definition's name, translate the body with the epilogue label
name_done, then emit the epilogue. -/
def CDefn.trans (fuel : Nat) (d : CDefn) : Except TransErr (SymT × List INST) :=
  match fuel with
  | 0 => .error TransErr.out_of_fuel
  | fuel' + 1 => do
    let (def_lbl, symt1) := d.symt.add_labl_named d.name
    let (ext_lbl, symt2) := symt1.add_labl_named (d.name ++ "_done")
    let (symt3, code1) ←
      CBlck.trans fuel' d.blck ext_lbl symt2 [INST.LBL def_lbl, INST.ENTER]
    .ok (symt3, code1 ++ [INST.LBL ext_lbl, INST.LEAVE])

/-!
The MIPS backend of dwislpy-mips.cc: the frame layout of compile_defn and
the .data section emission of Prgm::compile.
-/

/-- The frame-layout prefix of compile_defn (dwislpy-mips.cc lines 38-81):
reads the counts, computes the double-word aligned frame size from the
locals count (formals sit above the frame and do not enter the formula),
assigns formal offsets 0, 4, 8, ... and local offsets -4, -8, ...,
appends the two saved-register slots with the next offsets, and records the
frame size. -/
def compile_defn_layout (symt : SymT) : SymT :=
  let num_frmls := symt.get_frmls_size
  let num_locls := symt.get_locls_size
  let num_cargs : Int := 4
  let fs0 : Int := 4 * ((num_locls : Int) + num_cargs + 2)
  let frame_size : Int := if fs0 % 8 ≠ 0 then fs0 + 4 else fs0
  let symt1 := (List.range num_frmls).foldl (fun st i =>
      match st.get_frml i with
      | some info => st.set_frame_offset info.name (4 * (i : Int))
      | Option.none => st) symt
  let symt2 := (List.range num_locls).foldl (fun st i =>
      match st.get_locl i with
      | some info => st.set_frame_offset info.name (-4 - 4 * (i : Int))
      | Option.none => st) symt1
  let (ra, symt3) := symt2.add_locl "saved_return_address" Ty.int
  let (fp, symt4) := symt3.add_locl "saved_frame_pointer" Ty.int
  let symt5 := symt4.set_frame_offset ra (-4 - 4 * (num_locls : Int))
  let symt6 := symt5.set_frame_offset fp (-4 - 4 * (num_locls : Int) - 4)
  symt6.set_frame_size frame_size

/-- The .data section loop of Prgm::compile (dwislpy-mips.cc lines
106-112): for every entry of the global string pool, a label line followed
by an .asciiz line holding the re-escaped text in double quotes. -/
def data_section (st : SymT) : List String :=
  st.strings.foldr
    (fun p acc => (p.1 ++ ":") :: ("\t.asciiz " ++ "\"" ++ re_escape p.2 ++ "\"") :: acc) []

/-!
Concrete programs, tables and run states used to exercise the embedding.
-/

/-- A fixed source location for the concrete programs below. -/
def lo0 : Locn := ⟨"main.slpy", 1, 1⟩

/-- The initial console: no input tokens, empty output. -/
def w0 : World := ⟨[], ""⟩

/-- The body `return "a"` of a definition declared to return str. -/
def c1_body : CBlck := CBlck.mk [CStmt.RetE (CExpn.Ltrl (Valu.VStr "a") Ty.str lo0) lo0] lo0

/-- The definition `def f() -> str: return "a"`. -/
def c1_defn : CDefn := ⟨"f", SymT.empty, Ty.str, c1_body, lo0⟩

/-- A program with no definitions whose main block is a single pass. -/
def c1_prgm : CPrgm := ⟨[], CBlck.mk [CStmt.Pass lo0] lo0, SymT.empty, lo0⟩

/-- The definition `def f(): return` (a bare return). -/
def c2_fdefn : IDefn := ⟨"f", [], INest.mk (IBlck.mk [IStmt.Retn lo0] lo0) lo0, lo0⟩

/-- The definition `def g(): pass` (the body falls off the end). -/
def c2_gdefn : IDefn := ⟨"g", [], INest.mk (IBlck.mk [IStmt.Pass lo0] lo0) lo0, lo0⟩

/-- The definition list holding f and g. -/
def c2_defs : IDefs := [c2_fdefn, c2_gdefn]

/-- The classes that override Expn::trans_cndn, per their member lists in
dwislpy-ast.hh: Func, Conj, Disj, Less, LtEq, Eqal, Negt, Ltrl and Lkup.
Every other expression class inherits the base-class default. -/
def CExpn.overridesCndn : CExpn → Bool
  | CExpn.Func _ _ _ _ => true
  | CExpn.Conj _ _ _ _ => true
  | CExpn.Disj _ _ _ _ => true
  | CExpn.Less _ _ _ _ => true
  | CExpn.LtEq _ _ _ _ => true
  | CExpn.Eqal _ _ _ _ => true
  | CExpn.Negt _ _ _ => true
  | CExpn.Ltrl _ _ _ => true
  | CExpn.Lkup _ _ _ => true
  | _ => false

/-- An int-typed addition of two int literals (a non-bool condition). -/
def c3_plus : CExpn :=
  CExpn.Plus (CExpn.Ltrl (Valu.VInt 1) Ty.int lo0) (CExpn.Ltrl (Valu.VInt 2) Ty.int lo0)
    Ty.int lo0

/-- A symbol table holding one formal parameter and no locals. -/
def c6_symt : SymT := (SymT.empty.add_frml "n" Ty.int).2

/-- A symbol table in which x is a str local. -/
def c8_symt : SymT := (SymT.empty.add_locl "x" Ty.str).2

/-- A symbol table in which y is an int local. -/
def c8_symt_int : SymT := (SymT.empty.add_locl "y" Ty.int).2

/-- The global SymT after lowering one string literal "hi" (one add_strg
past the five standard constants). -/
def c10_st1 : SymT := (glbl_init.add_strg "hi").2

/-- The global SymT after lowering a second, identical literal "hi". -/
def c10_st2 : SymT := (c10_st1.add_strg "hi").2

/-!
Theorems.  One principal theorem per claim of the specification, with a
closed counterexample where the claim as stated fails on the code and a
closed witness where the principal theorem carries hypotheses.
-/

/-- Helper: updating an association list at a key it does not yet contain
appends a new entry at the end. -/
theorem assocSet_append_of_absent (k v : String) :
    ∀ l, strgGet k l = Option.none → assocSet k v l = l ++ [(k, v)] := by
  intro l
  induction l with
  | nil => intro _; rfl
  | cons p rest ih =>
    intro h
    simp only [strgGet] at h
    by_cases hk : p.1 = k
    · simp [hk] at h
    · simp only [assocSet]
      rw [if_neg hk, ih]
      · rfl
      · simpa [hk] using h

/-- C1 counterexample: for `def f() -> str: return "a"` the Rtns computed
for the body is the definite type IntTy (the default-constructed Type that
RetE::chck returns), which differs from the declared return type str, and
yet Defn::chck succeeds -- no located error is raised. -/
theorem C1_counterexample :
    CBlck.chck 5 c1_body (Rtns.ty Ty.str) [] SymT.empty = .ok (Rtns.ty Ty.int, SymT.empty)
    ∧ Rtns.ty Ty.int ≠ Rtns.ty Ty.str
    ∧ CDefn.chck 6 c1_defn [] = .ok () := by decide

/-- C1 (amended): Defn::chck raises exactly when the Rtns computed for the
body is Void or VoidOr; it never compares a definite Rtns type to the
declared return type.  Prgm::chck itself raises no error: it succeeds
whenever the definitions and the main block check, whatever Rtns the main
block produced (the non-Void branch constructs an error without throwing
it). -/
theorem C1_theorem :
    (∀ (fuel : Nat) (d : CDefn) (defs : CDefs) (r : Rtns) (st : SymT),
      CBlck.chck fuel d.blck (Rtns.ty d.rety) defs d.symt = .ok (r, st) →
      (CDefn.chck (fuel + 1) d defs = .ok () ↔ ∃ t, r = Rtns.ty t))
    ∧ (∀ (fuel : Nat) (p : CPrgm) (r : Rtns) (st : SymT),
        chckDefs fuel p.defs p.defs = .ok () →
        CBlck.chck fuel p.main Rtns.void p.defs p.main_symt = .ok (r, st) →
        CPrgm.chck (fuel + 1) p = .ok ()) := by
  constructor
  · intro fuel d defs r st h
    simp only [CDefn.chck, h, Bind.bind, Except.bind]
    cases r <;> simp
  · intro fuel p r st h1 h2
    simp only [CPrgm.chck, h1, h2, Bind.bind, Except.bind]
    cases r <;> rfl

/-- C1 witness: the amended theorem applied to the concrete definition
`def f() -> str: return "a"` and to the concrete program `pass`. -/
theorem C1_witness :
    (CDefn.chck 6 c1_defn [] = .ok () ↔ ∃ t, Rtns.ty Ty.int = Rtns.ty t)
    ∧ CPrgm.chck 6 c1_prgm = .ok () :=
  ⟨C1_theorem.1 5 c1_defn [] (Rtns.ty Ty.int) SymT.empty (by decide),
   C1_theorem.2 5 c1_prgm Rtns.void SymT.empty (by decide) (by decide)⟩

/-- C2 counterexample: calling `def f(): return` (a bare return) and
calling `def g(): pass` (falling off the end) both produce the integer 0 --
the default-constructed Valu, whose first variant alternative is int -- and
not the none value. -/
theorem C2_counterexample :
    IExpn.eval 10 c2_defs [] w0 (IExpn.ECal "f" [] lo0) = .ok (Valu.VInt 0, w0)
    ∧ IExpn.eval 10 c2_defs [] w0 (IExpn.ECal "g" [] lo0) = .ok (Valu.VInt 0, w0)
    ∧ Valu.VInt 0 ≠ Valu.VNone := by decide

/-- C2 (amended): executing a bare `return` yields the returned value int 0
(the default-constructed Valu, not none), and a call to a definition whose
body finishes without executing any return statement likewise produces
int 0; int 0 is a different value from none. -/
theorem C2_theorem :
    (∀ (fuel : Nat) (defs : IDefs) (ctxt : Ctxt) (w : World) (lo : Locn),
      IStmt.exec (fuel + 1) defs ctxt w (IStmt.Retn lo) = .ok (some (Valu.VInt 0), ctxt, w))
    ∧ (∀ (fuel : Nat) (defs : IDefs) (name : String) (d : IDefn) (ctxt ctxt' : Ctxt)
        (w w' : World) (lo : Locn),
        find_defn defs name = some d → d.args = [] →
        INest.exec (fuel + 1) defs [] w d.nest = .ok (Option.none, ctxt', w') →
        IExpn.eval (fuel + 2) defs ctxt w (IExpn.ECal name [] lo) = .ok (Valu.VInt 0, w'))
    ∧ Valu.VInt 0 ≠ Valu.VNone := by
  refine ⟨fun fuel defs ctxt w lo => rfl, ?_, by decide⟩
  intro fuel defs name d ctxt ctxt' w w' lo hfind hargs hnest
  simp [IExpn.eval, hfind, hargs, evalBindArgs, Bind.bind, Except.bind, hnest]

/-- C2 witness: the amended theorem applied to the concrete call g() whose
body falls off the end. -/
theorem C2_witness :
    IStmt.exec 1 c2_defs [] w0 (IStmt.Retn lo0) = .ok (some (Valu.VInt 0), [], w0)
    ∧ IExpn.eval 10 c2_defs [] w0 (IExpn.ECal "g" [] lo0) = .ok (Valu.VInt 0, w0) :=
  ⟨C2_theorem.1 0 c2_defs [] w0 lo0,
   C2_theorem.2.1 8 c2_defs "g" c2_gdefn [] [] w0 w0 lo0 rfl rfl rfl⟩

/-- C3 counterexample: lowering the int-typed condition `1 + 2` in
condition mode emits no IR at all -- no temporary, no BCZ branch -- so the
generated IR does not transfer control to either label. -/
theorem C3_counterexample :
    CExpn.trans_cndn 1 c3_plus "L_then" "L_else" SymT.empty [] = .ok (SymT.empty, []) := by
  decide

/-- C3 (amended): the base-class Expn::trans_cndn is an empty stub, and it
is what every expression class without an override (Plus, Mnus, Tmes, IDiv,
IMod, Inpt, IntC, StrC) uses in condition mode: the translation returns the
symbol table and the code unchanged, emitting neither a value-mode
evaluation nor a BCZ branch, so control falls through rather than
transferring to one of the two labels. -/
theorem C3_theorem :
    ∀ (fuel : Nat) (e : CExpn) (then_lbl else_lbl : String) (st : SymT) (code : List INST),
      e.overridesCndn = false →
      CExpn.trans_cndn (fuel + 1) e then_lbl else_lbl st code = .ok (st, code) := by
  intro fuel e then_lbl else_lbl st code h
  cases e <;> simp [CExpn.overridesCndn] at h <;> rfl

/-- C3 witness: the amended theorem applied to an int-typed subtraction in
condition position. -/
theorem C3_witness :
    CExpn.trans_cndn 1
      (CExpn.Mnus (CExpn.Ltrl (Valu.VInt 3) Ty.int lo0) (CExpn.Ltrl (Valu.VInt 4) Ty.int lo0)
        Ty.int lo0) "L_then" "L_else" SymT.empty [] = .ok (SymT.empty, []) :=
  C3_theorem 0
    (CExpn.Mnus (CExpn.Ltrl (Valu.VInt 3) Ty.int lo0) (CExpn.Ltrl (Valu.VInt 4) Ty.int lo0)
      Ty.int lo0) "L_then" "L_else" SymT.empty [] rfl

/-- C4 counterexample: in the interpreter, True == True evaluates to False,
and None == None evaluates to False. -/
theorem C4_counterexample :
    IExpn.eval 2 [] [] w0
        (IExpn.Eqal (IExpn.Ltrl (Valu.VBool true) lo0) (IExpn.Ltrl (Valu.VBool true) lo0) lo0)
      = .ok (Valu.VBool false, w0)
    ∧ IExpn.eval 2 [] [] w0
        (IExpn.Eqal (IExpn.Ltrl Valu.VNone lo0) (IExpn.Ltrl Valu.VNone lo0) lo0)
      = .ok (Valu.VBool false, w0) := by decide

/-- C4 (amended): `l == r` yields True exactly when both operands are ints
with equal values or both are strings with equal contents; every other pair
of operand kinds -- including two equal booleans and two nones -- yields
False. -/
theorem C4_theorem :
    ∀ (fuel : Nat) (defs : IDefs) (ctxt : Ctxt) (w w1 w2 : World) (l r : IExpn) (lo : Locn)
      (lv rv : Valu),
      IExpn.eval fuel defs ctxt w l = .ok (lv, w1) →
      IExpn.eval fuel defs ctxt w1 r = .ok (rv, w2) →
      IExpn.eval (fuel + 1) defs ctxt w (IExpn.Eqal l r lo) =
        .ok (Valu.VBool (match lv, rv with
          | Valu.VInt a, Valu.VInt b => decide (a = b)
          | Valu.VStr a, Valu.VStr b => decide (a = b)
          | _, _ => false), w2) := by
  intro fuel defs ctxt w w1 w2 l r lo lv rv h1 h2
  simp only [IExpn.eval, h1, h2, Bind.bind, Except.bind]
  cases lv <;> cases rv <;> simp

/-- C4 witness: the amended theorem applied to 1 == 2. -/
theorem C4_witness :
    IExpn.eval 2 [] [] w0
        (IExpn.Eqal (IExpn.Ltrl (Valu.VInt 1) lo0) (IExpn.Ltrl (Valu.VInt 2) lo0) lo0)
      = .ok (Valu.VBool false, w0) :=
  C4_theorem 1 [] [] w0 w0 w0 (IExpn.Ltrl (Valu.VInt 1) lo0) (IExpn.Ltrl (Valu.VInt 2) lo0)
    lo0 (Valu.VInt 1) (Valu.VInt 2) rfl rfl

/-- C5 counterexample: int("   42") does not raise -- std::stoi skips the
leading whitespace -- and evaluates to 42 (and int("42abc") parses the
digit prefix and yields 42), while int("") does raise. -/
theorem C5_counterexample :
    IExpn.eval 2 [] [] w0 (IExpn.IntC (IExpn.Ltrl (Valu.VStr "   42") lo0) lo0)
      = .ok (Valu.VInt 42, w0)
    ∧ IExpn.eval 2 [] [] w0 (IExpn.IntC (IExpn.Ltrl (Valu.VStr "42abc") lo0) lo0)
      = .ok (Valu.VInt 42, w0)
    ∧ IExpn.eval 2 [] [] w0 (IExpn.IntC (IExpn.Ltrl (Valu.VStr "") lo0) lo0)
      = .error (RunErr.err ⟨lo0,
          "Run-time error: \"" ++ "" ++ "\"" ++ "cannot be converted to an int."⟩) := by
  decide

/-- C5 (amended): int(s) on a string follows std::stoi: leading whitespace
is skipped, one optional sign is accepted, the longest digit prefix is
parsed and trailing characters are ignored; a run-time error is raised
exactly when no digit can be parsed, so int("") raises but int("   42")
yields 42 and int("42abc") yields 42. -/
theorem C5_theorem :
    (∀ (fuel : Nat) (defs : IDefs) (ctxt : Ctxt) (w w1 : World) (e : IExpn) (lo : Locn)
      (s : String),
      IExpn.eval fuel defs ctxt w e = .ok (Valu.VStr s, w1) →
      IExpn.eval (fuel + 1) defs ctxt w (IExpn.IntC e lo) =
        (match stoi s with
         | some i => .ok (Valu.VInt i, w1)
         | Option.none => .error (RunErr.err ⟨lo,
             "Run-time error: \"" ++ s ++ "\"" ++ "cannot be converted to an int."⟩)))
    ∧ stoi "" = Option.none ∧ stoi "   42" = some 42 ∧ stoi "42abc" = some 42
    ∧ stoi "abc" = Option.none := by
  refine ⟨?_, by decide, by decide, by decide, by decide⟩
  intro fuel defs ctxt w w1 e lo s h
  simp only [IExpn.eval, h, Bind.bind, Except.bind]

/-- C5 witness: the amended theorem applied to int("   42"). -/
theorem C5_witness :
    IExpn.eval 2 [] [] w0 (IExpn.IntC (IExpn.Ltrl (Valu.VStr "   42") lo0) lo0) =
      (match stoi "   42" with
       | some i => .ok (Valu.VInt i, w0)
       | Option.none => .error (RunErr.err ⟨lo0,
           "Run-time error: \"" ++ "   42" ++ "\"" ++ "cannot be converted to an int."⟩)) :=
  C5_theorem.1 1 [] [] w0 w0 (IExpn.Ltrl (Valu.VStr "   42") lo0) lo0 "   42" rfl

/-- C6 counterexample: for a definition with one formal and no locals,
frame_size is 24 while the claimed lower bound 4*1 + 4*0 + 8 + 4*4 = 28
exceeds it: the formals' slot sizes are not covered by the frame size. -/
theorem C6_counterexample :
    (compile_defn_layout c6_symt).frame_size = 24
    ∧ ¬ (4 * (c6_symt.get_frmls_size : Int) + 4 * (c6_symt.get_locls_size : Int) + 8 + 4 * 4
          ≤ (compile_defn_layout c6_symt).frame_size) := by decide

/-- C6 (amended): for every definition the frame size satisfies
4*num_locls + 8 (the two saved registers) + 4*num_cargs ≤ frame_size with
num_cargs = 4, and frame_size is a multiple of 8; the formals' slots sit
above the frame and are not part of the frame size. -/
theorem C6_theorem :
    ∀ st : SymT,
      4 * (st.get_locls_size : Int) + 8 + 4 * 4 ≤ (compile_defn_layout st).frame_size
      ∧ (compile_defn_layout st).frame_size % 8 = 0 := by
  intro st
  have h : (compile_defn_layout st).frame_size =
      (if (4 * ((st.get_locls_size : Int) + 4 + 2)) % 8 ≠ 0
       then 4 * ((st.get_locls_size : Int) + 4 + 2) + 4
       else 4 * ((st.get_locls_size : Int) + 4 + 2)) := by
    simp [compile_defn_layout, SymT.set_frame_size]
  rw [h]
  by_cases hc : (4 * ((st.get_locls_size : Int) + 4 + 2)) % 8 ≠ 0 <;>
    simp [hc] <;> omega

/-- C7 counterexample: checking `return "a"` against the expected return
type str succeeds but yields the definite Rtns carrying IntTy -- the
default-constructed Type -- not StrTy. -/
theorem C7_counterexample :
    CStmt.chck 3 (CStmt.RetE (CExpn.Ltrl (Valu.VStr "a") Ty.str lo0) lo0)
        (Rtns.ty Ty.str) [] SymT.empty
      = .ok (Rtns.ty Ty.int, SymT.empty)
    ∧ Ty.int ≠ Ty.str := by decide

/-- C7 (amended): when the checked type of e equals the expected return
type T (whether the expectation is the definite T or VoidOr T), RetE::chck
succeeds and yields a definite Rtns, but the type that Rtns carries is the
default-constructed IntTy regardless of T, not T itself. -/
theorem C7_theorem :
    ∀ (fuel : Nat) (e : CExpn) (T : Ty) (expd : Rtns) (defs : CDefs) (st : SymT) (lo : Locn),
      CExpn.chck fuel e defs st = .ok T →
      (expd = Rtns.ty T ∨ expd = Rtns.voidOr T) →
      CStmt.chck (fuel + 1) (CStmt.RetE e lo) expd defs st = .ok (Rtns.ty Ty.int, st) := by
  intro fuel e T expd defs st lo h hexpd
  rcases hexpd with rfl | rfl <;>
    simp [CStmt.chck, h, Bind.bind, Except.bind, type_of]

/-- C7 witness: the amended theorem applied to `return "a"` under the
expectation VoidOr str. -/
theorem C7_witness :
    CStmt.chck 2 (CStmt.RetE (CExpn.Ltrl (Valu.VStr "a") Ty.str lo0) lo0)
        (Rtns.voidOr Ty.str) [] SymT.empty
      = .ok (Rtns.ty Ty.int, SymT.empty) :=
  C7_theorem 1 (CExpn.Ltrl (Valu.VStr "a") Ty.str lo0) Ty.str (Rtns.voidOr Ty.str) []
    SymT.empty lo0 rfl (Or.inr rfl)

/-- C8 counterexample: with x of type str, checking `x += "hi"` succeeds --
no check-time error rejects the non-numeric operands -- and at run time the
interpreter concatenates the strings. -/
theorem C8_counterexample :
    CStmt.chck 2 (CStmt.PlEq "x" (CExpn.Ltrl (Valu.VStr "hi") Ty.str lo0) lo0)
        Rtns.void [] c8_symt
      = .ok (Rtns.void, c8_symt)
    ∧ IStmt.exec 2 [] [("x", Valu.VStr "a")] w0
        (IStmt.PlEq "x" (IExpn.Ltrl (Valu.VStr "b") lo0) lo0)
      = .ok (Option.none, [("x", Valu.VStr "ab")], w0) := by decide

/-- C8 (amended): checking `x += e` or `x -= e` (PlEq::chck and MiEq::chck,
both in src) succeeds exactly when x has been introduced and e's checked
type equals x's recorded type -- there is no additional numeric
restriction, so equal non-int types such as str pass the check -- and on
success the statement's behavior is Void with the symbol table unchanged.
The `x *= e` checker is absent from src; modelled from the spec, it
additionally rejects non-int operand types in line with its eventual
int-only arithmetic, succeeding exactly when x is introduced, the types are
equal, and they are int: concretely `x *= e` over str operands is a
check-time error while over int operands it is accepted. -/
theorem C8_theorem :
    (∀ (fuel : Nat) (nm : String) (e : CExpn) (lo : Locn) (expd : Rtns) (defs : CDefs)
      (st : SymT),
      ((∃ pr, CStmt.chck (fuel + 1) (CStmt.PlEq nm e lo) expd defs st = .ok pr) ↔
        (∃ info t, st.get_info nm = some info ∧ CExpn.chck fuel e defs st = .ok t
          ∧ info.type = t))
      ∧ ((∃ pr, CStmt.chck (fuel + 1) (CStmt.MiEq nm e lo) expd defs st = .ok pr) ↔
        (∃ info t, st.get_info nm = some info ∧ CExpn.chck fuel e defs st = .ok t
          ∧ info.type = t))
      ∧ ((∃ pr, CStmt.chck (fuel + 2) (CStmt.TiEq nm e lo) expd defs st = .ok pr) ↔
        (∃ info t, st.get_info nm = some info ∧ CExpn.chck fuel e defs st = .ok t
          ∧ info.type = t ∧ is_int t = true))
      ∧ (∀ pr, CStmt.chck (fuel + 1) (CStmt.PlEq nm e lo) expd defs st = .ok pr →
          pr = (Rtns.void, st)))
    ∧ CStmt.chck 3 (CStmt.TiEq "x" (CExpn.Ltrl (Valu.VStr "hi") Ty.str lo0) lo0)
        Rtns.void [] c8_symt
      = .error (ChckErr.err ⟨lo0, "Wrong operand types for times equals."⟩)
    ∧ CStmt.chck 3 (CStmt.TiEq "y" (CExpn.Ltrl (Valu.VInt 2) Ty.int lo0) lo0)
        Rtns.void [] c8_symt_int
      = .ok (Rtns.void, c8_symt_int) := by
  refine ⟨?_, by decide, by decide⟩
  intro fuel nm e lo expd defs st
  refine ⟨?_, ?_, ?_, ?_⟩
  · simp only [CStmt.chck]
    cases hinfo : st.get_info nm with
    | none => simp
    | some info =>
      cases hty : CExpn.chck fuel e defs st with
      | error er => simp [Bind.bind, Except.bind]
      | ok t =>
        simp only [Bind.bind, Except.bind]
        by_cases hEq : info.type = t
        · simp [hEq]
        · simp [hEq]
  · simp only [CStmt.chck]
    cases hinfo : st.get_info nm with
    | none => simp
    | some info =>
      cases hty : CExpn.chck fuel e defs st with
      | error er => simp [Bind.bind, Except.bind]
      | ok t =>
        simp only [Bind.bind, Except.bind]
        by_cases hEq : info.type = t
        · simp [hEq]
        · simp [hEq]
  · simp only [CStmt.chck, TiEq_chck]
    cases hinfo : st.get_info nm with
    | none => simp
    | some info =>
      cases hty : CExpn.chck fuel e defs st with
      | error er => simp [Bind.bind, Except.bind]
      | ok t =>
        simp only [Bind.bind, Except.bind]
        by_cases hEq : info.type = t
        · cases hInt : is_int info.type <;> simp [hEq, hEq ▸ hInt]
        · simp [hEq]
  · intro pr h
    simp only [CStmt.chck] at h
    cases hinfo : st.get_info nm with
    | none => rw [hinfo] at h; cases h
    | some info =>
      rw [hinfo] at h
      cases hty : CExpn.chck fuel e defs st with
      | error er => rw [hty] at h; cases h
      | ok t =>
        rw [hty] at h
        simp only [Bind.bind, Except.bind] at h
        by_cases hEq : info.type = t
        · simp [hEq] at h; exact h.symm ▸ rfl
        · simp [hEq] at h

/-- C8 witness: the amended theorem applied to `x += "hi"` with x a str
local: the check succeeds. -/
theorem C8_witness :
    ∃ pr, CStmt.chck 2 (CStmt.PlEq "x" (CExpn.Ltrl (Valu.VStr "hi") Ty.str lo0) lo0)
        Rtns.void [] c8_symt = .ok pr :=
  (C8_theorem.1 1 "x" (CExpn.Ltrl (Valu.VStr "hi") Ty.str lo0) lo0 Rtns.void []
      c8_symt).1.mpr
    ⟨⟨"x", 0, Ty.str, SymKind.LOCL, 0⟩, Ty.str, by decide, by decide, by decide⟩

/-- C9: the truthiness predicate is as specified (an int is truthy iff
non-zero, a bool is itself, a string is truthy iff non-empty, none is
falsy); `and` and `or` evaluate both operands -- an error in the right
operand surfaces even when the left operand already decides the result --
and combine their truthiness; `not` evaluates its operand and returns a
boolean; in particular `not 0`, `not ""` and `not None` all evaluate to
True. -/
theorem C9_theorem :
    ((∀ i : Int, predicate (Valu.VInt i) = decide (i ≠ 0))
      ∧ (∀ b : Bool, predicate (Valu.VBool b) = b)
      ∧ (∀ s : String, predicate (Valu.VStr s) = decide (s ≠ ""))
      ∧ predicate Valu.VNone = false)
    ∧ (∀ (fuel : Nat) (defs : IDefs) (ctxt : Ctxt) (w w1 w2 : World) (l r : IExpn)
        (lo : Locn) (lv rv : Valu),
        IExpn.eval fuel defs ctxt w l = .ok (lv, w1) →
        IExpn.eval fuel defs ctxt w1 r = .ok (rv, w2) →
        IExpn.eval (fuel + 1) defs ctxt w (IExpn.Conj l r lo) =
          .ok (Valu.VBool (predicate lv && predicate rv), w2)
        ∧ IExpn.eval (fuel + 1) defs ctxt w (IExpn.Disj l r lo) =
          .ok (Valu.VBool (predicate lv || predicate rv), w2))
    ∧ (∀ (fuel : Nat) (defs : IDefs) (ctxt : Ctxt) (w w1 : World) (l r : IExpn) (lo : Locn)
        (lv : Valu) (er : RunErr),
        IExpn.eval fuel defs ctxt w l = .ok (lv, w1) →
        IExpn.eval fuel defs ctxt w1 r = .error er →
        IExpn.eval (fuel + 1) defs ctxt w (IExpn.Conj l r lo) = .error er
        ∧ IExpn.eval (fuel + 1) defs ctxt w (IExpn.Disj l r lo) = .error er)
    ∧ (∀ (fuel : Nat) (defs : IDefs) (ctxt : Ctxt) (w w1 : World) (e : IExpn) (lo : Locn)
        (v : Valu),
        IExpn.eval fuel defs ctxt w e = .ok (v, w1) →
        IExpn.eval (fuel + 1) defs ctxt w (IExpn.Negt e lo) =
          .ok (Valu.VBool (! predicate v), w1))
    ∧ (IExpn.eval 2 [] [] w0 (IExpn.Negt (IExpn.Ltrl (Valu.VInt 0) lo0) lo0)
        = .ok (Valu.VBool true, w0)
      ∧ IExpn.eval 2 [] [] w0 (IExpn.Negt (IExpn.Ltrl (Valu.VStr "") lo0) lo0)
        = .ok (Valu.VBool true, w0)
      ∧ IExpn.eval 2 [] [] w0 (IExpn.Negt (IExpn.Ltrl Valu.VNone lo0) lo0)
        = .ok (Valu.VBool true, w0)) := by
  refine ⟨⟨fun i => rfl, fun b => rfl, fun s => rfl, rfl⟩, ?_, ?_, ?_, by decide⟩
  · intro fuel defs ctxt w w1 w2 l r lo lv rv h1 h2
    constructor <;> simp [IExpn.eval, h1, h2, Bind.bind, Except.bind]
  · intro fuel defs ctxt w w1 l r lo lv er h1 h2
    constructor <;> simp [IExpn.eval, h1, h2, Bind.bind, Except.bind]
  · intro fuel defs ctxt w w1 e lo v h
    simp [IExpn.eval, h, Bind.bind, Except.bind]

/-- C9 witness: `1 and ""` evaluates both operands and yields False. -/
theorem C9_witness :
    IExpn.eval 2 [] [] w0
        (IExpn.Conj (IExpn.Ltrl (Valu.VInt 1) lo0) (IExpn.Ltrl (Valu.VStr "") lo0) lo0)
      = .ok (Valu.VBool (predicate (Valu.VInt 1) && predicate (Valu.VStr "")), w0) :=
  (C9_theorem.2.1 1 [] [] w0 w0 w0 (IExpn.Ltrl (Valu.VInt 1) lo0)
    (IExpn.Ltrl (Valu.VStr "") lo0) lo0 (Valu.VInt 1) (Valu.VStr "") rfl rfl).1

/-- C10: add_strg on the root table allocates the fresh label L_<n> where n
is the current counter value, increments the counter, and -- when that
label is not yet a key of the pool, which a fresh label never is -- appends
a brand new entry even for previously interned text; concretely, lowering
the literal "hi" twice past the interned standard constants produces the
distinct labels L_5 and L_6 and the emitted .data section carries two
separate .asciiz entries for "hi". -/
theorem C10_theorem :
    (∀ (st : SymT) (s : String), ((st.add_strg s).2).sym_id = st.sym_id + 1)
    ∧ (∀ (st : SymT) (s : String), (st.add_strg s).1 = "L_" ++ Nat.repr st.sym_id)
    ∧ (∀ (st : SymT) (s : String),
        strgGet ("L_" ++ Nat.repr st.sym_id) st.strings = Option.none →
        ((st.add_strg s).2).strings = st.strings ++ [("L_" ++ Nat.repr st.sym_id, s)])
    ∧ (CExpn.trans 1 (CExpn.Ltrl (Valu.VStr "hi") Ty.str lo0) "x" glbl_init []
        = .ok (c10_st1, [INST.STL "x" "L_5"])
      ∧ CExpn.trans 1 (CExpn.Ltrl (Valu.VStr "hi") Ty.str lo0) "y" c10_st1 []
        = .ok (c10_st2, [INST.STL "y" "L_6"])
      ∧ ("L_5" : String) ≠ "L_6"
      ∧ (data_section c10_st2).count "\t.asciiz \"hi\"" = 2
      ∧ c10_st2.strings.length = 7) := by
  refine ⟨fun st s => rfl, fun st s => rfl, ?_, ?_⟩
  · intro st s h
    simp only [SymT.add_strg, SymT.add_labl, SymT.add_labl_named]
    exact assocSet_append_of_absent _ s st.strings h
  · set_option maxRecDepth 4000 in decide

/-- C10 witness: the append clause applied to the interned global table and
the literal "hi": L_5 is not yet in the pool, so the entry (L_5, "hi") is
appended after the five standard constants. -/
theorem C10_witness :
    c10_st1.strings = glbl_init.strings ++ [("L_" ++ Nat.repr glbl_init.sym_id, "hi")] :=
  C10_theorem.2.2.1 glbl_init "hi" (by set_option maxRecDepth 2000 in decide)

end DwiSlpy
